import Mathlib

/-!
# SafeTransact banking: accounts, ledgers and fund transfer

A shallow embedding of `src/main.cpp`.

* Amounts are C++ `double`s, modelled as IEEE 754 binary64 values (`Double`):
  a finite value, an infinity or NaN.  Every sum, difference and product is
  rounded to nearest, ties to even, overflows to an infinity, and follows the
  IEEE rules for infinities and NaN; comparisons with NaN are false.  Each
  operation is evaluated in binary64 as written, one at a time (no extended
  precision, no fused multiply-add).
* A member function that may throw is a function from the object's state to
  a `Run`: the exception thrown, if any, together with the state the object
  is left in.  State written before a `throw` therefore stays written, as in
  C++.
* Accounts are held through `shared_ptr`, so they live in a heap of accounts
  addressed by natural numbers; a customer holds addresses.
* `getCurrentDate()` reads the wall clock.  Every function that builds a
  `Transaction` takes the date string that call returned as an argument.
* Console output (`cout`, `display`, `displayHistory`) is not part of the
  state and is left out.
-/

namespace SafeTransact

/-! ## The type `double` -/

/-- A value of the C++ type `double` (IEEE 754 binary64): a finite value, given
by the rational number it stands for, an infinity, or NaN.  The two zeros are
one value, `finite 0`: they compare equal, and the source has no division and
no sign test that could tell them apart.  The type also holds rationals that
are no binary64 value; literals and the results of `+`, `-` and `*` are always
binary64 values, so a state built from them holds binary64 values only. -/
inductive Double where
  | finite (q : ℚ)
  | posInf
  | negInf
  | nan
  deriving DecidableEq, Repr

/-- Nearest natural number to `n / d` for `d > 0`, a tie going to the even one. -/
def roundHalfEven (n d : Nat) : Nat :=
  let q := n / d
  let r := n % d
  if 2 * r < d then q else if d < 2 * r then q + 1 else if q % 2 = 0 then q else q + 1

/-- Binary logarithm by repeated halving, with `fuel` halvings allowed. -/
def log2Fuel : Nat → Nat → Nat
  | 0, _ => 0
  | fuel + 1, n => if n < 2 then 0 else log2Fuel fuel (n / 2) + 1

/-- Position of the leading bit: `2 ^ floorLog2 n ≤ n < 2 ^ (floorLog2 n + 1)` for `n > 0`. -/
def floorLog2 (n : Nat) : Nat := log2Fuel n n

/-- Rounding of the positive rational `n / d` to binary64, round to nearest,
ties to even; `none` is overflow.  With `e` the binary exponent of `n / d`, the
result is a multiple of `2 ^ (e - 52)` (53 significant bits), or of `2 ^ (-1074)`
in the subnormal range; `p` below is `52 - e` shifted by the bit lengths. -/
def Double.roundMag (n d : Nat) : Option ℚ :=
  let ln := floorLog2 n
  let ld := floorLog2 d
  let p := ld + 52 + (if d * 2 ^ ln ≤ n * 2 ^ ld then 0 else 1)
  let v : ℚ :=
    if p ≤ ln then ((roundHalfEven n (d * 2 ^ (ln - p)) * 2 ^ (ln - p) : Nat) : ℚ)
    else (roundHalfEven (n * 2 ^ (min (p - ln) 1074)) d : ℚ) / 2 ^ (min (p - ln) 1074)
  if (2 : ℚ) ^ 1024 ≤ v then none else some v

/-- Rounding of an exact result to binary64: round to nearest, ties to even,
overflow to the infinity of the same sign. -/
def Double.round (q : ℚ) : Double :=
  if q = 0 then .finite 0
  else
    match Double.roundMag q.num.natAbs q.den with
    | none => if 0 < q then .posInf else .negInf
    | some v => .finite (if 0 < q then v else -v)

/-- Value of a decimal literal of the source, such as `0.01`: the nearest `double`. -/
def Double.ofDecimal (q : ℚ) : Double := Double.round q

/-- Unary minus. -/
def Double.neg : Double → Double
  | .finite a => .finite (-a)
  | .posInf => .negInf
  | .negInf => .posInf
  | .nan => .nan

/-- Operator `+` on `double`. -/
def Double.add : Double → Double → Double
  | .finite a, .finite b => Double.round (a + b)
  | .nan, _ => .nan
  | _, .nan => .nan
  | .posInf, .negInf => .nan
  | .negInf, .posInf => .nan
  | .posInf, _ => .posInf
  | _, .posInf => .posInf
  | .negInf, _ => .negInf
  | _, .negInf => .negInf

/-- Operator `-` on `double`. -/
def Double.sub (a b : Double) : Double := Double.add a (Double.neg b)

/-- Operator `*` on `double`. -/
def Double.mul : Double → Double → Double
  | .finite a, .finite b => Double.round (a * b)
  | .nan, _ => .nan
  | _, .nan => .nan
  | .finite a, .posInf => if a = 0 then .nan else if 0 < a then .posInf else .negInf
  | .finite a, .negInf => if a = 0 then .nan else if 0 < a then .negInf else .posInf
  | .posInf, .finite b => if b = 0 then .nan else if 0 < b then .posInf else .negInf
  | .negInf, .finite b => if b = 0 then .nan else if 0 < b then .negInf else .posInf
  | .posInf, .posInf => .posInf
  | .posInf, .negInf => .negInf
  | .negInf, .posInf => .negInf
  | .negInf, .negInf => .posInf

/-- Operator `<` on `double`; false when an operand is NaN. -/
def Double.lt : Double → Double → Bool
  | .nan, _ => false
  | _, .nan => false
  | .finite a, .finite b => decide (a < b)
  | .finite _, .posInf => true
  | .finite _, .negInf => false
  | .posInf, _ => false
  | .negInf, .negInf => false
  | .negInf, _ => true

/-- Operator `<=` on `double`; false when an operand is NaN. -/
def Double.le : Double → Double → Bool
  | .nan, _ => false
  | _, .nan => false
  | .finite a, .finite b => decide (a ≤ b)
  | .finite _, .posInf => true
  | .finite _, .negInf => false
  | .posInf, .posInf => true
  | .posInf, _ => false
  | .negInf, _ => true

instance : Neg Double := ⟨Double.neg⟩

instance : Add Double := ⟨Double.add⟩

instance : Sub Double := ⟨Double.sub⟩

instance : Mul Double := ⟨Double.mul⟩

instance : LT Double := ⟨fun a b => Double.lt a b = true⟩

instance : LE Double := ⟨fun a b => Double.le a b = true⟩

instance (a b : Double) : Decidable (a < b) :=
  inferInstanceAs (Decidable (Double.lt a b = true))

instance (a b : Double) : Decidable (a ≤ b) :=
  inferInstanceAs (Decidable (Double.le a b = true))

/-- An integer literal of the source, such as the `0` of `amount <= 0`, read
as a `double`: the nearest one. -/
instance (n : Nat) : OfNat Double n := ⟨Double.round n⟩

/-- The value is a finite number. -/
def Double.isFinite : Double → Bool
  | .finite _ => true
  | _ => false

/-- The value is one a `double` can hold: rounding leaves it as it is. -/
def Double.isDouble : Double → Bool
  | .finite q => decide (Double.round q = .finite q)
  | _ => true


/-! ## Exceptions and outcomes -/

/-- The two standard exception classes thrown by the source, with `what()`. -/
inductive Exception where
  | invalid_argument (what : String)
  | runtime_error (what : String)
  deriving DecidableEq, Repr

/-- Outcome of running a member function: `thrown = none` is a normal return,
`state` is the state left behind in either case. -/
structure Run (σ : Type) where
  thrown : Option Exception
  state : σ

/-- Sequencing of two statements: the second runs only if the first returned
normally; otherwise the exception propagates with the state reached so far. -/
def Run.andThen {σ : Type} (r : Run σ) (k : σ → Run σ) : Run σ :=
  match r.thrown with
  | some _ => r
  | none => k r.state

/-! ## Data model -/

/-- Ledger record, `struct Transaction`: `type` is 'D', 'W', 'T' or 'L'. -/
structure Transaction where
  type : Char
  amount : Double
  date : String
  description : String
  deriving DecidableEq, Repr

/-- Fields of `class SavingsAccount` (with those inherited from `Account`). -/
structure SavingsAccount where
  accountNumber : String
  accountHolder : String
  balance : Double
  interestRate : Double
  transactions : List Transaction
  deriving DecidableEq, Repr

/-- Fields of `class CheckingAccount` (with those inherited from `Account`). -/
structure CheckingAccount where
  accountNumber : String
  accountHolder : String
  balance : Double
  overdraftLimit : Double
  transactions : List Transaction
  deriving DecidableEq, Repr

/-- Fields of `class LoanAccount` (with those inherited from `Account`). -/
structure LoanAccount where
  accountNumber : String
  accountHolder : String
  balance : Double
  loanAmount : Double
  interestRate : Double
  monthlyPayment : Double
  transactions : List Transaction
  deriving DecidableEq, Repr

/-- An object of dynamic type `SavingsAccount`, `CheckingAccount` or
`LoanAccount`, seen through `Account*`. -/
inductive Account where
  | savings (a : SavingsAccount)
  | checking (a : CheckingAccount)
  | loan (a : LoanAccount)
  deriving DecidableEq, Repr

/-- Method `Account::getAccountNumber`. -/
def Account.getAccountNumber : Account → String
  | .savings a => a.accountNumber
  | .checking a => a.accountNumber
  | .loan a => a.accountNumber

/-- Method `Account::getBalance`. -/
def Account.getBalance : Account → Double
  | .savings a => a.balance
  | .checking a => a.balance
  | .loan a => a.balance

/-- The `transactions` vector of the object, whatever its dynamic type. -/
def Account.transactions : Account → List Transaction
  | .savings a => a.transactions
  | .checking a => a.transactions
  | .loan a => a.transactions

/-! ## Account operations -/

/-- Base-class `Account::deposit`, acting on the `balance` field. -/
def Account.baseDeposit (amount : Double) (balance : Double) : Run Double :=
  if amount ≤ 0 then
    ⟨some (.invalid_argument "Deposit amount must be positive."), balance⟩
  else
    ⟨none, balance + amount⟩

/-- Method `SavingsAccount::applyInterest`. -/
def SavingsAccount.applyInterest (date : String) (a : SavingsAccount) :
    Run SavingsAccount :=
  let interest := a.balance * a.interestRate
  ⟨none, { a with
    balance := a.balance + interest
    transactions := a.transactions ++ [⟨'D', interest, date, "Interest Applied"⟩] }⟩

/-- Method `SavingsAccount::withdraw`. -/
def SavingsAccount.withdraw (amount : Double) (date : String) (a : SavingsAccount) :
    Run SavingsAccount :=
  if amount ≤ 0 then
    ⟨some (.invalid_argument "Withdrawal amount must be positive."), a⟩
  else if amount > a.balance then
    ⟨some (.runtime_error "Insufficient funds."), a⟩
  else
    ⟨none, { a with
      balance := a.balance - amount
      transactions := a.transactions ++ [⟨'W', amount, date, "Withdrawal"⟩] }⟩

/-- Method `SavingsAccount::deposit`: the base-class deposit, then the ledger record. -/
def SavingsAccount.deposit (amount : Double) (date : String) (a : SavingsAccount) :
    Run SavingsAccount :=
  let r := Account.baseDeposit amount a.balance
  match r.thrown with
  | some e => ⟨some e, { a with balance := r.state }⟩
  | none =>
    ⟨none, { a with
      balance := r.state
      transactions := a.transactions ++ [⟨'D', amount, date, "Deposit"⟩] }⟩

/-- Method `CheckingAccount::withdraw`. -/
def CheckingAccount.withdraw (amount : Double) (date : String) (a : CheckingAccount) :
    Run CheckingAccount :=
  if amount ≤ 0 then
    ⟨some (.invalid_argument "Withdrawal amount must be positive."), a⟩
  else if amount > a.balance + a.overdraftLimit then
    ⟨some (.runtime_error "Overdraft limit exceeded."), a⟩
  else
    ⟨none, { a with
      balance := a.balance - amount
      transactions := a.transactions ++ [⟨'W', amount, date, "Withdrawal"⟩] }⟩

/-- Method `CheckingAccount::deposit`: the base-class deposit, then the ledger record. -/
def CheckingAccount.deposit (amount : Double) (date : String) (a : CheckingAccount) :
    Run CheckingAccount :=
  let r := Account.baseDeposit amount a.balance
  match r.thrown with
  | some e => ⟨some e, { a with balance := r.state }⟩
  | none =>
    ⟨none, { a with
      balance := r.state
      transactions := a.transactions ++ [⟨'D', amount, date, "Deposit"⟩] }⟩

/-- Method `LoanAccount::processMonthlyPayment`. -/
def LoanAccount.processMonthlyPayment (date : String) (a : LoanAccount) :
    Run LoanAccount :=
  let interest := a.loanAmount * a.interestRate
  let loanAmount := a.loanAmount + interest
  let monthlyPayment := loanAmount * Double.ofDecimal (1 / 100)
  ⟨none, { a with
    loanAmount := loanAmount
    monthlyPayment := monthlyPayment
    transactions := a.transactions ++ [⟨'L', monthlyPayment, date, "Monthly Loan Payment"⟩]
    balance := a.balance - monthlyPayment }⟩

/-- Method `LoanAccount::deposit` (loan repayment). -/
def LoanAccount.deposit (amount : Double) (date : String) (a : LoanAccount) :
    Run LoanAccount :=
  if amount ≤ 0 then
    ⟨some (.invalid_argument "Repayment amount must be positive."), a⟩
  else
    ⟨none, { a with
      loanAmount := a.loanAmount - amount
      balance := a.balance + amount
      transactions := a.transactions ++ [⟨'D', amount, date, "Loan Repayment"⟩] }⟩

/-- Method `LoanAccount::withdraw`: throws whatever the amount. -/
def LoanAccount.withdraw (_amount : Double) (_date : String) (a : LoanAccount) :
    Run LoanAccount :=
  ⟨some (.runtime_error "Withdrawals are not allowed from a loan account."), a⟩

/-- Virtual call `account->deposit(amount)`. -/
def Account.deposit (amount : Double) (date : String) : Account → Run Account
  | .savings a => let r := a.deposit amount date; ⟨r.thrown, .savings r.state⟩
  | .checking a => let r := a.deposit amount date; ⟨r.thrown, .checking r.state⟩
  | .loan a => let r := a.deposit amount date; ⟨r.thrown, .loan r.state⟩

/-- Virtual call `account->withdraw(amount)`. -/
def Account.withdraw (amount : Double) (date : String) : Account → Run Account
  | .savings a => let r := a.withdraw amount date; ⟨r.thrown, .savings r.state⟩
  | .checking a => let r := a.withdraw amount date; ⟨r.thrown, .checking r.state⟩
  | .loan a => let r := a.withdraw amount date; ⟨r.thrown, .loan r.state⟩

/-! ## Customers, the bank and the heap of accounts -/

/-- Memory holding the `Account` objects; an address stands for a non-null
`shared_ptr<Account>`. -/
abbrev Heap := Nat → Account

/-- Fields of `class Customer`; `accounts` holds the pointers in `push_back` order. -/
structure Customer where
  username : String
  password : String
  name : String
  email : String
  accounts : List Nat
  deriving DecidableEq, Repr

/-- Method `Customer::getAccounts`. -/
def Customer.getAccounts (c : Customer) : List Nat := c.accounts

/-- Fields of `class Bank`; `customers` is in `push_back` order. -/
structure Bank where
  customers : List Customer
  deriving DecidableEq, Repr

/-- Inner loop of `Bank::findAccount`: first pointer whose object has the number. -/
def findInAccounts (h : Heap) (accNum : String) : List Nat → Option Nat
  | [] => none
  | p :: ps => if (h p).getAccountNumber = accNum then some p else findInAccounts h accNum ps

/-- Outer loop of `Bank::findAccount`. -/
def findInCustomers (h : Heap) (accNum : String) : List Customer → Option Nat
  | [] => none
  | c :: cs =>
    match findInAccounts h accNum c.getAccounts with
    | some p => some p
    | none => findInCustomers h accNum cs

/-- Method `Bank::findAccount`; `none` is `nullptr`. -/
def Bank.findAccount (bank : Bank) (h : Heap) (accNum : String) : Option Nat :=
  findInCustomers h accNum bank.customers

/-- Call a member function on the object at address `p`. -/
def Heap.call (h : Heap) (p : Nat) (f : Account → Run Account) : Run Heap :=
  let r := f (h p)
  ⟨r.thrown, Function.update h p r.state⟩

/-- The block `if (auto* s = dynamic_cast<SavingsAccount*>(p)) s->deposit(amount);`. -/
def Heap.ifSavingsDeposit (h : Heap) (p : Nat) (amount : Double) (date : String) : Run Heap :=
  match h p with
  | .savings a => let r := a.deposit amount date; ⟨r.thrown, Function.update h p (.savings r.state)⟩
  | _ => ⟨none, h⟩

/-- The block `if (auto* c = dynamic_cast<CheckingAccount*>(p)) c->deposit(amount);`. -/
def Heap.ifCheckingDeposit (h : Heap) (p : Nat) (amount : Double) (date : String) : Run Heap :=
  match h p with
  | .checking a => let r := a.deposit amount date; ⟨r.thrown, Function.update h p (.checking r.state)⟩
  | _ => ⟨none, h⟩

/-- Method `Bank::transferFunds`.  `clock i` is the date read at the `i`-th of the six
calls in the body: 0 the withdrawal, 1 the deposit, 2 and 3 the follow-up
deposits on a Savings or Checking source, 4 and 5 those on a Savings or
Checking destination. -/
def Bank.transferFunds (bank : Bank) (h : Heap) (fromAcc toAcc : String) (amount : Double)
    (clock : Nat → String) : Run Heap :=
  match bank.findAccount h fromAcc, bank.findAccount h toAcc with
  | some source, some destination =>
    (((((h.call source (Account.withdraw amount (clock 0))).andThen
      fun h => h.call destination (Account.deposit amount (clock 1))).andThen
      fun h => h.ifSavingsDeposit source (-amount) (clock 2)).andThen
      fun h => h.ifCheckingDeposit source (-amount) (clock 3)).andThen
      fun h => h.ifSavingsDeposit destination amount (clock 4)).andThen
      fun h => h.ifCheckingDeposit destination amount (clock 5)
  | _, _ => ⟨some (.runtime_error "One or both accounts not found."), h⟩

/-! ## The accounts built by `main` -/

/-- Constructor `SavingsAccount(accNum, holder, initialBalance, rate)`. -/
def SavingsAccount.new (accNum holder : String) (initialBalance rate : Double) : SavingsAccount :=
  ⟨accNum, holder, initialBalance, rate, []⟩

/-- Constructor `CheckingAccount(accNum, holder, initialBalance, overdraft)`. -/
def CheckingAccount.new (accNum holder : String) (initialBalance overdraft : Double) :
    CheckingAccount :=
  ⟨accNum, holder, initialBalance, overdraft, []⟩

/-- Constructor `LoanAccount(accNum, holder, loanAmt, rate)`.  The source leaves
`monthlyPayment` uninitialised; `garbage` is the value it happens to hold. -/
def LoanAccount.new (accNum holder : String) (loanAmt rate : Double) (garbage : Double) : LoanAccount :=
  ⟨accNum, holder, 0, loanAmt, rate, garbage, []⟩

/-- The four accounts `main` creates, at addresses 0 to 3. -/
def mainHeap : Heap := fun p =>
  if p = 0 then .savings (SavingsAccount.new "SA1001" "Alice Smith" 5000 (Double.ofDecimal (3 / 100)))
  else if p = 1 then .checking (CheckingAccount.new "CA1001" "Alice Smith" 2000 500)
  else if p = 2 then .savings (SavingsAccount.new "SA2001" "Bob Johnson" 3000 (Double.ofDecimal (2 / 100)))
  else .loan (LoanAccount.new "LA2001" "Bob Johnson" 10000 (Double.ofDecimal (5 / 100)) 0)

/-- The bank `main` builds: alice owns SA1001 and CA1001, bob SA2001 and LA2001. -/
def mainBank : Bank :=
  ⟨[⟨"alice", "password123", "Alice Smith", "alice@example.com", [0, 1]⟩,
    ⟨"bob", "securepwd", "Bob Johnson", "bob@example.com", [2, 3]⟩]⟩

/-- A clock that shows the same day at every read. -/
def fixedClock (day : String) : Nat → String := fun _ => day

/-! ## Vocabulary for the statements -/

/-- The amount is within the withdrawal policy of the account, as the source
tests it: at most the balance (Savings), at most the `double` sum of balance
and overdraft limit (Checking); a Loan allows no withdrawal. -/
def Account.withinPolicy : Account → Double → Prop
  | .savings s, amount => amount ≤ s.balance
  | .checking c, amount => amount ≤ c.balance + c.overdraftLimit
  | .loan _, _ => False

instance (a : Account) (amount : Double) : Decidable (a.withinPolicy amount) := by
  cases a <;> unfold Account.withinPolicy <;> infer_instance

/-- A valid amount for `withdraw` on the account: positive and within the
withdrawal policy. -/
def Account.canWithdraw (a : Account) (amount : Double) : Prop :=
  0 < amount ∧ a.withinPolicy amount

instance (a : Account) (amount : Double) : Decidable (a.canWithdraw amount) := by
  unfold Account.canWithdraw; infer_instance

/-- Dynamic type test `dynamic_cast<SavingsAccount*>(p) != nullptr`. -/
def Account.isSavings : Account → Bool
  | .savings _ => true
  | _ => false

/-- Dynamic type test `dynamic_cast<CheckingAccount*>(p) != nullptr`. -/
def Account.isChecking : Account → Bool
  | .checking _ => true
  | _ => false

/-- Heap after the two legs of a transfer: source debited, then destination credited. -/
def Heap.afterLegs (h : Heap) (A B : Nat) (amount : Double) (clock : Nat → String) : Heap :=
  let h1 := Function.update h A ((h A).withdraw amount (clock 0)).state
  Function.update h1 B ((h1 B).deposit amount (clock 1)).state

/-! ## Sequences of operations -/

/-- Call of `applyInterest()` through an `Account*`: the method exists on
`SavingsAccount` only, so the caller first tests the dynamic type (as menu
entry 6 of `main` does) and leaves any other object untouched. -/
def Account.applyInterest (date : String) : Account → Run Account
  | .savings a => let r := a.applyInterest date; ⟨r.thrown, .savings r.state⟩
  | a => ⟨none, a⟩

/-- Call of `processMonthlyPayment()` through an `Account*`: the method exists
on `LoanAccount` only; any other object is left untouched. -/
def Account.processMonthlyPayment (date : String) : Account → Run Account
  | .loan a => let r := a.processMonthlyPayment date; ⟨r.thrown, .loan r.state⟩
  | a => ⟨none, a⟩

/-- One mutating call a client can make: a member function on the account at
address `p`, or `Bank::transferFunds`. -/
inductive Event where
  | deposit (p : Nat) (amount : Double) (date : String)
  | withdraw (p : Nat) (amount : Double) (date : String)
  | applyInterest (p : Nat) (date : String)
  | processMonthlyPayment (p : Nat) (date : String)
  | transferFunds (fromAcc toAcc : String) (amount : Double) (clock : Nat → String)

/-- Effect of one call on the heap, with the exception it throws, if any. -/
def Bank.step (bank : Bank) (h : Heap) : Event → Run Heap
  | .deposit p amount date => h.call p (Account.deposit amount date)
  | .withdraw p amount date => h.call p (Account.withdraw amount date)
  | .applyInterest p date => h.call p (Account.applyInterest date)
  | .processMonthlyPayment p date => h.call p (Account.processMonthlyPayment date)
  | .transferFunds fromAcc toAcc amount clock =>
    bank.transferFunds h fromAcc toAcc amount clock

/-- Heap after a sequence of calls, each exception being caught by the caller
(as the `try` blocks of `main` and `processTransaction` do) before the next call. -/
def Bank.run (bank : Bank) : List Event → Heap → Heap
  | [], h => h
  | e :: es, h => bank.run es (bank.step h e).state

/-- Balance after booking one ledger entry on the balance `b`, in `double`
arithmetic: a 'D' entry adds its amount, a 'W' or 'L' entry subtracts it, any
other type leaves the balance. -/
def Transaction.applyTo (b : Double) (t : Transaction) : Double :=
  if t.type = 'D' then b + t.amount
  else if t.type = 'W' ∨ t.type = 'L' then b - t.amount
  else b

/-- Balance obtained from `initial` by booking the entries of a ledger one
after the other, oldest first, each step rounded as `double` arithmetic rounds. -/
def replayLedger (initial : Double) (ledger : List Transaction) : Double :=
  ledger.foldl Transaction.applyTo initial

/-- The amounts passed by a call: the one argument of `deposit`, `withdraw`
and `transferFunds`; `applyInterest` and `processMonthlyPayment` take none. -/
def Event.amounts : Event → List Double
  | .deposit _ amount _ => [amount]
  | .withdraw _ amount _ => [amount]
  | .applyInterest _ _ => []
  | .processMonthlyPayment _ _ => []
  | .transferFunds _ _ amount _ => [amount]

/-- The amounts carried by the call are finite numbers, as every amount read
by `cin >> amount` is. -/
def Event.finiteAmount (e : Event) : Bool := e.amounts.all Double.isFinite

/-- Order in which `Bank::findAccount` visits the account pointers: customers
in `push_back` order, and the accounts of each customer in `push_back` order. -/
def Bank.scanOrder (bank : Bank) : List Nat :=
  bank.customers.flatMap Customer.getAccounts

/-! ## Comparisons on `double` -/

theorem Double.lt_def (a b : Double) : a < b ↔ Double.lt a b = true := Iff.rfl

theorem Double.le_def (a b : Double) : a ≤ b ↔ Double.le a b = true := Iff.rfl

theorem Double.zero_def : (0 : Double) = .finite 0 := by
  show Double.round ((0 : ℕ) : ℚ) = .finite 0
  simp [Double.round]

theorem Double.neg_def (a : Double) : -a = Double.neg a := rfl

theorem Double.not_le_zero_of_pos {a : Double} (h : 0 < a) : ¬ a ≤ 0 := by
  rw [Double.lt_def, Double.zero_def] at h
  rw [Double.le_def, Double.zero_def]
  cases a with
  | finite q =>
    simp only [Double.lt, decide_eq_true_eq] at h
    simp only [Double.le, decide_eq_true_eq, not_le]
    exact h
  | posInf => simp [Double.le]
  | negInf => simp [Double.lt] at h
  | nan => simp [Double.le]

theorem Double.neg_le_zero_of_pos {a : Double} (h : 0 < a) : -a ≤ 0 := by
  rw [Double.lt_def, Double.zero_def] at h
  rw [Double.le_def, Double.zero_def, Double.neg_def]
  cases a with
  | finite q =>
    simp only [Double.lt, decide_eq_true_eq] at h
    simp only [Double.neg, Double.le, decide_eq_true_eq]
    linarith
  | posInf => simp [Double.neg, Double.le]
  | negInf => simp [Double.lt] at h
  | nan => simp [Double.lt] at h

theorem Double.pos_of_not_le_zero {a : Double} (h : ¬ a ≤ 0) (hn : a ≠ .nan) : 0 < a := by
  rw [Double.le_def, Double.zero_def] at h
  rw [Double.lt_def, Double.zero_def]
  cases a with
  | finite q =>
    simp only [Double.le, decide_eq_true_eq, not_le] at h
    simp only [Double.lt, decide_eq_true_eq]
    exact h
  | posInf => simp [Double.lt]
  | negInf => simp [Double.le] at h
  | nan => exact absurd rfl hn

theorem Double.ne_nan_of_pos {a : Double} (h : 0 < a) : a ≠ .nan := by
  rintro rfl
  rw [Double.lt_def, Double.zero_def] at h
  simp [Double.lt] at h

theorem Double.not_lt_of_le {a b : Double} (h : a ≤ b) : ¬ b < a := by
  rw [Double.le_def] at h
  rw [Double.lt_def]
  cases a <;> cases b <;> simp_all [Double.le, Double.lt]

theorem Double.le_of_not_lt {a b : Double} (h : ¬ b < a) (ha : a ≠ .nan) (hb : b ≠ .nan) :
    a ≤ b := by
  rw [Double.lt_def] at h
  rw [Double.le_def]
  cases a <;> cases b <;> simp_all [Double.le, Double.lt]

/-! ## Signs under rounding -/

theorem Double.roundMag_nonneg (n d : Nat) (v : ℚ) (hv : Double.roundMag n d = some v) :
    0 ≤ v := by
  unfold Double.roundMag at hv
  simp only at hv
  split_ifs at hv <;> cases hv <;>
    first
    | exact Nat.cast_nonneg _
    | exact div_nonneg (Nat.cast_nonneg _) (by positivity)

theorem Double.round_nonneg (q : ℚ) (hq : 0 ≤ q) : (0 : Double) ≤ Double.round q := by
  rw [Double.le_def, Double.zero_def]
  unfold Double.round
  by_cases h0 : q = 0
  · simp [h0, Double.le]
  · have hpos : 0 < q := lt_of_le_of_ne hq (Ne.symm h0)
    rw [if_neg h0]
    cases hm : Double.roundMag q.num.natAbs q.den with
    | none => simp [hpos, Double.le]
    | some v =>
      have := Double.roundMag_nonneg _ _ v hm
      simp [hpos, Double.le, this]

theorem Double.add_nonneg {a b : Double} (ha : 0 ≤ a) (hb : 0 ≤ b) : 0 ≤ a + b := by
  rw [Double.le_def, Double.zero_def] at ha hb
  cases a with
  | finite x =>
    cases b with
    | finite y =>
      simp only [Double.le, decide_eq_true_eq] at ha hb
      exact Double.round_nonneg (x + y) (by linarith)
    | posInf => rfl
    | negInf => simp [Double.le] at hb
    | nan => simp [Double.le] at hb
  | posInf =>
    cases b with
    | finite y => rfl
    | posInf => rfl
    | negInf => simp [Double.le] at hb
    | nan => simp [Double.le] at hb
  | negInf => simp [Double.le] at ha
  | nan => simp [Double.le] at ha

theorem Double.sub_nonneg_of_not_lt {a x : Double} (ha : 0 ≤ a) (hx : x.isFinite = true)
    (h1 : ¬ a < x) : 0 ≤ a - x := by
  rw [Double.le_def, Double.zero_def] at ha
  rw [Double.lt_def] at h1
  cases x with
  | finite y =>
    cases a with
    | finite b =>
      simp only [Double.lt, decide_eq_true_eq, not_lt] at h1
      exact Double.round_nonneg (b + -y) (by linarith)
    | posInf => rfl
    | negInf => simp [Double.le] at ha
    | nan => simp [Double.le] at ha
  | posInf => simp [Double.isFinite] at hx
  | negInf => simp [Double.isFinite] at hx
  | nan => simp [Double.isFinite] at hx

theorem Double.mul_nonneg_of_pos {a r : Double} (ha : 0 ≤ a) (hr : 0 < r)
    (hf : r.isFinite = true) : 0 ≤ a * r := by
  rw [Double.le_def, Double.zero_def] at ha
  rw [Double.lt_def, Double.zero_def] at hr
  cases r with
  | finite y =>
    simp only [Double.lt, decide_eq_true_eq] at hr
    cases a with
    | finite b =>
      simp only [Double.le, decide_eq_true_eq] at ha
      exact Double.round_nonneg (b * y) (mul_nonneg ha hr.le)
    | posInf =>
      show (0 : Double) ≤ Double.mul .posInf (.finite y)
      simp only [Double.mul, hr.ne', hr, if_true, if_false]
      decide
    | negInf => simp [Double.le] at ha
    | nan => simp [Double.le] at ha
  | posInf => simp [Double.isFinite] at hf
  | negInf => simp [Double.isFinite] at hf
  | nan => simp [Double.isFinite] at hf

/-! ## Account-level facts -/

theorem Account.withdraw_thrown_state (a : Account) (amount : Double) (date : String)
    (e : Exception) (ht : (a.withdraw amount date).thrown = some e) :
    (a.withdraw amount date).state = a := by
  cases a with
  | savings s =>
    simp only [Account.withdraw, SavingsAccount.withdraw] at ht ⊢
    split_ifs at ht ⊢ <;> simp_all
  | checking c =>
    simp only [Account.withdraw, CheckingAccount.withdraw] at ht ⊢
    split_ifs at ht ⊢ <;> simp_all
  | loan l => rfl

theorem Account.deposit_nonpos (a : Account) (amount : Double) (date : String)
    (hle : amount ≤ 0) :
    (∃ what, (a.deposit amount date).thrown = some (.invalid_argument what)) ∧
      (a.deposit amount date).state = a := by
  cases a <;>
    simp [Account.deposit, SavingsAccount.deposit, CheckingAccount.deposit, LoanAccount.deposit,
      Account.baseDeposit, hle]

theorem Account.deposit_accepted (a : Account) (amount : Double) (date : String)
    (hn : ¬ amount ≤ 0) :
    (a.deposit amount date).thrown = none ∧
      (a.deposit amount date).state.getBalance = a.getBalance + amount ∧
      ∃ description, (a.deposit amount date).state.transactions =
        a.transactions ++ [⟨'D', amount, date, description⟩] := by
  cases a <;>
    simp [Account.deposit, SavingsAccount.deposit, CheckingAccount.deposit, LoanAccount.deposit,
      Account.baseDeposit, hn, Account.getBalance, Account.transactions]

theorem Account.deposit_pos (a : Account) (amount : Double) (date : String)
    (hpos : 0 < amount) :
    (a.deposit amount date).thrown = none ∧
      (a.deposit amount date).state.getBalance = a.getBalance + amount ∧
      ∃ description, (a.deposit amount date).state.transactions =
        a.transactions ++ [⟨'D', amount, date, description⟩] :=
  Account.deposit_accepted a amount date (Double.not_le_zero_of_pos hpos)

theorem Account.withdraw_of_canWithdraw (a : Account) (amount : Double) (date : String)
    (hc : a.canWithdraw amount) : (a.withdraw amount date).thrown = none := by
  have h0 := Double.not_le_zero_of_pos hc.1
  cases a with
  | savings s =>
    have h1 : ¬ amount > s.balance := Double.not_lt_of_le hc.2
    simp [Account.withdraw, SavingsAccount.withdraw, h0, h1]
  | checking c =>
    have h1 : ¬ amount > c.balance + c.overdraftLimit := Double.not_lt_of_le hc.2
    simp [Account.withdraw, CheckingAccount.withdraw, h0, h1]
  | loan l => exact absurd hc.2 (fun hf => hf)

theorem Account.withdraw_accepted (a : Account) (amount : Double) (date : String)
    (hok : (a.withdraw amount date).thrown = none) :
    (a.withdraw amount date).state.getBalance = a.getBalance - amount ∧
      (a.withdraw amount date).state.transactions =
        a.transactions ++ [⟨'W', amount, date, "Withdrawal"⟩] := by
  cases a with
  | savings s =>
    simp only [Account.withdraw, SavingsAccount.withdraw] at hok ⊢
    split_ifs at hok ⊢
    exact ⟨rfl, rfl⟩
  | checking c =>
    simp only [Account.withdraw, CheckingAccount.withdraw] at hok ⊢
    split_ifs at hok ⊢
    exact ⟨rfl, rfl⟩
  | loan l => simp [Account.withdraw, LoanAccount.withdraw] at hok

theorem Account.withdraw_accepted_not_le (a : Account) (amount : Double) (date : String)
    (hok : (a.withdraw amount date).thrown = none) : ¬ amount ≤ 0 := by
  cases a with
  | savings s =>
    simp only [Account.withdraw, SavingsAccount.withdraw] at hok
    split_ifs at hok with h0
    exact h0
  | checking c =>
    simp only [Account.withdraw, CheckingAccount.withdraw] at hok
    split_ifs at hok with h0
    exact h0
  | loan l => simp [Account.withdraw, LoanAccount.withdraw] at hok

theorem Account.withdraw_accepted_kind (a : Account) (amount : Double) (date : String)
    (hok : (a.withdraw amount date).thrown = none) :
    (a.isSavings = true ∧ a.isChecking = false) ∨ (a.isSavings = false ∧ a.isChecking = true) := by
  cases a with
  | savings s => exact Or.inl ⟨rfl, rfl⟩
  | checking c => exact Or.inr ⟨rfl, rfl⟩
  | loan l => simp [Account.withdraw, LoanAccount.withdraw] at hok

theorem Account.withdraw_isSavings (a : Account) (amount : Double) (date : String) :
    (a.withdraw amount date).state.isSavings = a.isSavings := by
  cases a <;> rfl

theorem Account.withdraw_isChecking (a : Account) (amount : Double) (date : String) :
    (a.withdraw amount date).state.isChecking = a.isChecking := by
  cases a <;> rfl

theorem Account.deposit_isSavings (a : Account) (amount : Double) (date : String) :
    (a.deposit amount date).state.isSavings = a.isSavings := by
  cases a <;> rfl

theorem Account.deposit_isChecking (a : Account) (amount : Double) (date : String) :
    (a.deposit amount date).state.isChecking = a.isChecking := by
  cases a <;> rfl

theorem Account.canWithdraw_pos (a : Account) (amount : Double) (hc : a.canWithdraw amount) :
    0 < amount := hc.1

/-! ## Transfer -/

theorem Bank.transferFunds_unresolved (bank : Bank) (h : Heap) (fromAcc toAcc : String)
    (amount : Double) (clock : Nat → String)
    (hnone : bank.findAccount h fromAcc = none ∨ bank.findAccount h toAcc = none) :
    bank.transferFunds h fromAcc toAcc amount clock =
      ⟨some (.runtime_error "One or both accounts not found."), h⟩ := by
  unfold Bank.transferFunds
  rcases hnone with h1 | h1
  · rw [h1]
  · rw [h1]
    cases bank.findAccount h fromAcc <;> rfl

theorem Bank.transferFunds_refused (bank : Bank) (h : Heap) (fromAcc toAcc : String)
    (amount : Double) (clock : Nat → String) (A B : Nat) (e : Exception)
    (hA : bank.findAccount h fromAcc = some A) (hB : bank.findAccount h toAcc = some B)
    (he : ((h A).withdraw amount (clock 0)).thrown = some e) :
    bank.transferFunds h fromAcc toAcc amount clock = ⟨some e, h⟩ := by
  have hs := Account.withdraw_thrown_state (h A) amount (clock 0) e he
  simp [Bank.transferFunds, hA, hB, Heap.call, Run.andThen, he, hs]

theorem Heap.ifSavingsDeposit_nonpos (h : Heap) (p : Nat) (amount : Double) (date : String)
    (hle : amount ≤ 0) :
    h.ifSavingsDeposit p amount date =
      ⟨if (h p).isSavings then some (.invalid_argument "Deposit amount must be positive.")
        else none, h⟩ := by
  unfold Heap.ifSavingsDeposit
  cases hp : h p with
  | savings s =>
    have : Function.update h p (Account.savings s) = h := by
      rw [← hp]; exact Function.update_eq_self p h
    simp [SavingsAccount.deposit, Account.baseDeposit, hle, Account.isSavings, this]
  | checking c => simp [Account.isSavings]
  | loan l => simp [Account.isSavings]

theorem Heap.ifCheckingDeposit_nonpos (h : Heap) (p : Nat) (amount : Double) (date : String)
    (hle : amount ≤ 0) :
    h.ifCheckingDeposit p amount date =
      ⟨if (h p).isChecking then some (.invalid_argument "Deposit amount must be positive.")
        else none, h⟩ := by
  unfold Heap.ifCheckingDeposit
  cases hp : h p with
  | checking c =>
    have : Function.update h p (Account.checking c) = h := by
      rw [← hp]; exact Function.update_eq_self p h
    simp [CheckingAccount.deposit, Account.baseDeposit, hle, Account.isChecking, this]
  | savings s => simp [Account.isChecking]
  | loan l => simp [Account.isChecking]

theorem Heap.afterLegs_source (h : Heap) (A B : Nat) (amount : Double) (clock : Nat → String) :
    (h.afterLegs A B amount clock A).isSavings = (h A).isSavings ∧
      (h.afterLegs A B amount clock A).isChecking = (h A).isChecking := by
  unfold Heap.afterLegs
  by_cases hAB : A = B
  · subst hAB
    simp [Account.deposit_isSavings, Account.deposit_isChecking, Account.withdraw_isSavings,
      Account.withdraw_isChecking]
  · simp [Function.update_noteq hAB, Account.withdraw_isSavings, Account.withdraw_isChecking]

/-- A transfer whose withdrawal goes through, for an amount that is a number:
both legs are applied and the follow-up `deposit(-amount)` on the source throws. -/
theorem Bank.transferFunds_accepted (bank : Bank) (h : Heap) (fromAcc toAcc : String)
    (amount : Double) (clock : Nat → String) (A B : Nat)
    (hA : bank.findAccount h fromAcc = some A) (hB : bank.findAccount h toAcc = some B)
    (hok : ((h A).withdraw amount (clock 0)).thrown = none) (hnum : amount ≠ .nan) :
    bank.transferFunds h fromAcc toAcc amount clock =
      ⟨some (.invalid_argument "Deposit amount must be positive."),
        h.afterLegs A B amount clock⟩ := by
  have hn0 := Account.withdraw_accepted_not_le _ _ _ hok
  have hpos := Double.pos_of_not_le_zero hn0 hnum
  have hneg : -amount ≤ 0 := Double.neg_le_zero_of_pos hpos
  have hd := fun a => (Account.deposit_pos a amount (clock 1) hpos).1
  have hk := Heap.afterLegs_source h A B amount clock
  unfold Heap.afterLegs at hk
  simp only [Bank.transferFunds, hA, hB, Heap.call, Run.andThen, hok, hd, Heap.afterLegs,
    Heap.ifSavingsDeposit_nonpos _ _ _ _ hneg, Heap.ifCheckingDeposit_nonpos _ _ _ _ hneg]
  rcases Account.withdraw_accepted_kind _ _ _ hok with ⟨h1, h2⟩ | ⟨h1, h2⟩
  · simp [hk.1, h1]
  · simp [hk.1, hk.2, h1, h2]

theorem Heap.afterLegs_at_source (h : Heap) (A B : Nat) (amount : Double)
    (clock : Nat → String) (hAB : A ≠ B) :
    h.afterLegs A B amount clock A = ((h A).withdraw amount (clock 0)).state := by
  simp [Heap.afterLegs, Function.update_noteq hAB]

theorem Heap.afterLegs_at_destination (h : Heap) (A B : Nat) (amount : Double)
    (clock : Nat → String) (hAB : A ≠ B) :
    h.afterLegs A B amount clock B = ((h B).deposit amount (clock 1)).state := by
  simp [Heap.afterLegs, Function.update_noteq (Ne.symm hAB)]

/-! ## Properties of one account kept by every call -/

theorem Heap.call_state_apply (h : Heap) (q : Nat) (f : Account → Run Account) (p : Nat) :
    (h.call q f).state p = if p = q then (f (h q)).state else h p := by
  unfold Heap.call
  by_cases hpq : p = q
  · subst hpq
    simp
  · simp [Function.update_noteq hpq, hpq]

theorem Heap.call_keeps (P : Account → Prop) (f : Account → Run Account)
    (hf : ∀ a, P a → P (f a).state) (h : Heap) (q p : Nat) (hp : P (h p)) :
    P ((h.call q f).state p) := by
  rw [Heap.call_state_apply]
  split_ifs with hpq
  · subst hpq
    exact hf _ hp
  · exact hp

theorem Heap.ifSavingsDeposit_keeps (P : Account → Prop) (amount : Double) (date : String)
    (hdep : ∀ a, P a → P (Account.deposit amount date a).state)
    (h : Heap) (q p : Nat) (hp : P (h p)) :
    P ((h.ifSavingsDeposit q amount date).state p) := by
  unfold Heap.ifSavingsDeposit
  cases hq : h q with
  | savings s =>
    by_cases hpq : p = q
    · subst hpq
      have := hdep _ hp
      rw [hq] at this
      simpa [Account.deposit] using this
    · simpa [Function.update_noteq hpq] using hp
  | checking c => exact hp
  | loan l => exact hp

theorem Heap.ifCheckingDeposit_keeps (P : Account → Prop) (amount : Double) (date : String)
    (hdep : ∀ a, P a → P (Account.deposit amount date a).state)
    (h : Heap) (q p : Nat) (hp : P (h p)) :
    P ((h.ifCheckingDeposit q amount date).state p) := by
  unfold Heap.ifCheckingDeposit
  cases hq : h q with
  | checking c =>
    by_cases hpq : p = q
    · subst hpq
      have := hdep _ hp
      rw [hq] at this
      simpa [Account.deposit] using this
    · simpa [Function.update_noteq hpq] using hp
  | savings s => exact hp
  | loan l => exact hp

theorem Run.andThen_keeps {σ : Type} (R : σ → Prop) (r : Run σ) (k : σ → Run σ)
    (hr : R r.state) (hk : ∀ s, R s → R (k s).state) : R (r.andThen k).state := by
  unfold Run.andThen
  split
  · exact hr
  · exact hk _ hr

/-- Every statement of `transferFunds` is a `deposit` or a `withdraw` of
`amount` or `-amount` on one account, so a property kept by those is kept by
the whole call, however it ends. -/
theorem Bank.transferFunds_keeps (P : Account → Prop) (amount : Double)
    (hdep : ∀ a d, P a → P (Account.deposit amount d a).state)
    (hneg : ∀ a d, P a → P (Account.deposit (-amount) d a).state)
    (hwd : ∀ a d, P a → P (Account.withdraw amount d a).state)
    (bank : Bank) (h : Heap) (fromAcc toAcc : String) (clock : Nat → String)
    (p : Nat) (hp : P (h p)) :
    P ((bank.transferFunds h fromAcc toAcc amount clock).state p) := by
  unfold Bank.transferFunds
  cases bank.findAccount h fromAcc with
  | none => exact hp
  | some A =>
    cases bank.findAccount h toAcc with
    | none => exact hp
    | some B =>
      refine Run.andThen_keeps (fun s => P (s p)) _ _ ?_
        (fun s hs => Heap.ifCheckingDeposit_keeps P _ _ (fun a => hdep a _) s B p hs)
      refine Run.andThen_keeps (fun s => P (s p)) _ _ ?_
        (fun s hs => Heap.ifSavingsDeposit_keeps P _ _ (fun a => hdep a _) s B p hs)
      refine Run.andThen_keeps (fun s => P (s p)) _ _ ?_
        (fun s hs => Heap.ifCheckingDeposit_keeps P _ _ (fun a => hneg a _) s A p hs)
      refine Run.andThen_keeps (fun s => P (s p)) _ _ ?_
        (fun s hs => Heap.ifSavingsDeposit_keeps P _ _ (fun a => hneg a _) s A p hs)
      refine Run.andThen_keeps (fun s => P (s p)) _ _ ?_
        (fun s hs => Heap.call_keeps P _ (fun a => hdep a _) s B p hs)
      exact Heap.call_keeps P _ (fun a => hwd a _) h A p hp

theorem Bank.step_keeps (P : Account → Prop) (Q : Double → Prop)
    (hQ : ∀ x, Q x → Q (-x))
    (hdep : ∀ a x d, Q x → P a → P (Account.deposit x d a).state)
    (hwd : ∀ a x d, Q x → P a → P (Account.withdraw x d a).state)
    (hint : ∀ a d, P a → P (Account.applyInterest d a).state)
    (hpay : ∀ a d, P a → P (Account.processMonthlyPayment d a).state)
    (bank : Bank) (h : Heap) (e : Event) (he : ∀ x ∈ e.amounts, Q x) (p : Nat)
    (hp : P (h p)) : P ((bank.step h e).state p) := by
  cases e with
  | deposit q amount date =>
    have hq : Q amount := he amount (by simp [Event.amounts])
    exact Heap.call_keeps P _ (fun a => hdep a amount date hq) h q p hp
  | withdraw q amount date =>
    have hq : Q amount := he amount (by simp [Event.amounts])
    exact Heap.call_keeps P _ (fun a => hwd a amount date hq) h q p hp
  | applyInterest q date => exact Heap.call_keeps P _ (fun a => hint a date) h q p hp
  | processMonthlyPayment q date => exact Heap.call_keeps P _ (fun a => hpay a date) h q p hp
  | transferFunds fromAcc toAcc amount clock =>
    have hq : Q amount := he amount (by simp [Event.amounts])
    exact Bank.transferFunds_keeps P amount (fun a d => hdep a amount d hq)
      (fun a d => hdep a (-amount) d (hQ _ hq)) (fun a d => hwd a amount d hq)
      bank h fromAcc toAcc clock p hp

theorem Bank.run_keeps (P : Account → Prop) (Q : Double → Prop)
    (hQ : ∀ x, Q x → Q (-x))
    (hdep : ∀ a x d, Q x → P a → P (Account.deposit x d a).state)
    (hwd : ∀ a x d, Q x → P a → P (Account.withdraw x d a).state)
    (hint : ∀ a d, P a → P (Account.applyInterest d a).state)
    (hpay : ∀ a d, P a → P (Account.processMonthlyPayment d a).state)
    (bank : Bank) (es : List Event) (hes : ∀ e ∈ es, ∀ x ∈ e.amounts, Q x) (h : Heap)
    (p : Nat) (hp : P (h p)) : P (bank.run es h p) := by
  induction es generalizing h with
  | nil => exact hp
  | cons e es ih =>
    exact ih (fun e2 h2 => hes e2 (List.mem_cons_of_mem _ h2)) _
      (Bank.step_keeps P Q hQ hdep hwd hint hpay bank h e
        (hes e (List.mem_cons_self _ _)) p hp)

/-! ## Transfer: failure before any mutation -/

/-- C1 as stated fails on a Checking source: the code compares the amount
with the `double` sum `balance + overdraftLimit`, not with the exact sum.  On
the bank of `main`, once 3000000000000000000 has been deposited into CA1001
its balance is 3000000000000002048 (limit 500).  The amount
3000000000000002560 exceeds the exact sum 3000000000000002548, so by the
claim CA1001 cannot validly withdraw it; but the `double` sum is
3000000000000002560, the withdrawal goes through, and the transfer to SA1001
leaves CA1001 at -512 and SA1001 credited. -/
theorem transferFunds_exceeding_exact_sum_mutates :
    ((mainBank.run [.deposit 1 3000000000000000000 "2024-01-01"] mainHeap) 1).getBalance =
      .finite 3000000000000002048 ∧
    (3000000000000000000 : Double) = .finite 3000000000000000000 ∧
    (3000000000000002560 : Double) = .finite 3000000000000002560 ∧
    (3000000000000002560 : ℚ) > 3000000000000002048 + 500 ∧
    ((mainBank.transferFunds
      (mainBank.run [.deposit 1 3000000000000000000 "2024-01-01"] mainHeap)
      "CA1001" "SA1001" 3000000000000002560 (fixedClock "2024-01-02")).state 1).getBalance =
      .finite (-512) ∧
    ((mainBank.run [.deposit 1 3000000000000000000 "2024-01-01"] mainHeap) 0).getBalance =
      .finite 5000 ∧
    ((mainBank.transferFunds
      (mainBank.run [.deposit 1 3000000000000000000 "2024-01-01"] mainHeap)
      "CA1001" "SA1001" 3000000000000002560 (fixedClock "2024-01-02")).state 0).getBalance =
      .finite 3000000000000007680 := by
  refine ⟨by decide!, by decide!, by decide!, by norm_num, by decide!, by decide!, by decide!⟩

/-- C1, amended: when both account numbers resolve (to `A` and `B`) and the
source's own `withdraw` test refuses the amount (the amount is not positive,
or exceeds the balance of a Savings source, or exceeds the `double` sum
`balance + overdraftLimit` of a Checking source, or the source is a Loan),
`transferFunds` throws, the exception being the one thrown by the source's
`withdraw`, and the balance and ledger of `A` and of `B` are what they were;
in fact the whole heap is.  Distinctness of `A` and `B` is not needed. -/
theorem transferFunds_atomic_when_withdraw_refused (bank : Bank) (h : Heap)
    (fromAcc toAcc : String) (amount : Double) (clock : Nat → String) (A B : Nat)
    (hA : bank.findAccount h fromAcc = some A) (hB : bank.findAccount h toAcc = some B)
    (hno : amount ≤ 0 ∨ (∃ s, h A = .savings s ∧ amount > s.balance) ∨
      (∃ c, h A = .checking c ∧ amount > c.balance + c.overdraftLimit) ∨
      (∃ l, h A = .loan l)) :
    (bank.transferFunds h fromAcc toAcc amount clock).thrown ≠ none ∧
    (bank.transferFunds h fromAcc toAcc amount clock).thrown =
      ((h A).withdraw amount (clock 0)).thrown ∧
    ((bank.transferFunds h fromAcc toAcc amount clock).state A).getBalance = (h A).getBalance ∧
    ((bank.transferFunds h fromAcc toAcc amount clock).state A).transactions =
      (h A).transactions ∧
    ((bank.transferFunds h fromAcc toAcc amount clock).state B).getBalance = (h B).getBalance ∧
    ((bank.transferFunds h fromAcc toAcc amount clock).state B).transactions =
      (h B).transactions ∧
    (bank.transferFunds h fromAcc toAcc amount clock).state = h := by
  have hsome : ∃ e, ((h A).withdraw amount (clock 0)).thrown = some e := by
    cases ht : ((h A).withdraw amount (clock 0)).thrown with
    | some e => exact ⟨e, rfl⟩
    | none =>
      exfalso
      have hn0 := Account.withdraw_accepted_not_le _ _ _ ht
      rcases hno with h0 | ⟨s, hs, h1⟩ | ⟨c, hc, h1⟩ | ⟨l, hl⟩
      · exact hn0 h0
      · rw [hs] at ht
        simp [Account.withdraw, SavingsAccount.withdraw, hn0, h1] at ht
      · rw [hc] at ht
        simp [Account.withdraw, CheckingAccount.withdraw, hn0, h1] at ht
      · rw [hl] at ht
        simp [Account.withdraw, LoanAccount.withdraw] at ht
  obtain ⟨e, he⟩ := hsome
  rw [Bank.transferFunds_refused bank h fromAcc toAcc amount clock A B e hA hB he, he]
  simp

/-- Instance of the amended C1 on the bank of `main`: SA1001 holds 5000, so a
transfer of 6000 to CA1001 is refused and changes nothing. -/
theorem transferFunds_atomic_when_withdraw_refused_witness :
    mainBank.findAccount mainHeap "SA1001" = some 0 ∧
    mainBank.findAccount mainHeap "CA1001" = some 1 ∧
    mainHeap 0 = .savings (SavingsAccount.new "SA1001" "Alice Smith" 5000
      (Double.ofDecimal (3 / 100))) ∧
    (6000 : Double) > (SavingsAccount.new "SA1001" "Alice Smith" 5000
      (Double.ofDecimal (3 / 100))).balance ∧
    (mainBank.transferFunds mainHeap "SA1001" "CA1001" 6000 (fixedClock "2024-01-01")).thrown
      ≠ none ∧
    (mainBank.transferFunds mainHeap "SA1001" "CA1001" 6000 (fixedClock "2024-01-01")).state
      = mainHeap :=
  ⟨by decide!, by decide!, rfl, by decide!,
    (transferFunds_atomic_when_withdraw_refused mainBank mainHeap "SA1001" "CA1001" 6000
      (fixedClock "2024-01-01") 0 1 (by decide!) (by decide!)
      (Or.inr (Or.inl ⟨_, rfl, by decide!⟩))).1,
    (transferFunds_atomic_when_withdraw_refused mainBank mainHeap "SA1001" "CA1001" 6000
      (fixedClock "2024-01-01") 0 1 (by decide!) (by decide!)
      (Or.inr (Or.inl ⟨_, rfl, by decide!⟩))).2.2.2.2.2.2⟩

/-! ## Transfer: what a withdrawal that goes through leaves behind -/

/-- C2 as stated fails: the two legs round separately, so the sum is not
conserved.  On the bank of `main`, once 10000000000000000 has been deposited
into SA1001 its balance is 10000000000005000; the amount 1 is valid for it.
After the transfer of 1 to CA1001 the source still holds 10000000000005000
(it has not decreased by 1) while CA1001 has gone from 2000 to 2001. -/
theorem transferFunds_sum_not_conserved :
    ((mainBank.run [.deposit 0 10000000000000000 "2024-01-01"] mainHeap) 0).getBalance =
      .finite 10000000000005000 ∧
    ((mainBank.run [.deposit 0 10000000000000000 "2024-01-01"] mainHeap) 1).getBalance =
      .finite 2000 ∧
    ((mainBank.run [.deposit 0 10000000000000000 "2024-01-01"] mainHeap) 0).canWithdraw 1 ∧
    ((mainBank.transferFunds
      (mainBank.run [.deposit 0 10000000000000000 "2024-01-01"] mainHeap)
      "SA1001" "CA1001" 1 (fixedClock "2024-01-02")).state 0).getBalance =
      .finite 10000000000005000 ∧
    ((mainBank.transferFunds
      (mainBank.run [.deposit 0 10000000000000000 "2024-01-01"] mainHeap)
      "SA1001" "CA1001" 1 (fixedClock "2024-01-02")).state 1).getBalance = .finite 2001 ∧
    (10000000000005000 + 2001 : ℚ) ≠ 10000000000005000 + 2000 := by
  refine ⟨by decide!, by decide!, by decide!, by decide!, by decide!, by norm_num⟩

/-- C2, amended: for distinct resolved accounts `A` and `B` and an amount the
source can validly withdraw, in the state left by `transferFunds` the balance
of `A` is the `double` difference `old - amount`, the balance of `B` is the
`double` sum `old + amount` (each rounded to the nearest `double`, so the sum
of the two is conserved up to rounding only), and each of the two ledgers is
the old ledger followed by exactly one entry. -/
theorem transferFunds_moves_amount (bank : Bank) (h : Heap) (fromAcc toAcc : String)
    (amount : Double) (clock : Nat → String) (A B : Nat)
    (hA : bank.findAccount h fromAcc = some A) (hB : bank.findAccount h toAcc = some B)
    (hAB : A ≠ B) (hvalid : (h A).canWithdraw amount) :
    ((bank.transferFunds h fromAcc toAcc amount clock).state A).getBalance =
      (h A).getBalance - amount ∧
    ((bank.transferFunds h fromAcc toAcc amount clock).state B).getBalance =
      (h B).getBalance + amount ∧
    (∃ t, ((bank.transferFunds h fromAcc toAcc amount clock).state A).transactions =
      (h A).transactions ++ [t]) ∧
    (∃ t, ((bank.transferFunds h fromAcc toAcc amount clock).state B).transactions =
      (h B).transactions ++ [t]) := by
  have hok := Account.withdraw_of_canWithdraw (h A) amount (clock 0) hvalid
  have hw := Account.withdraw_accepted (h A) amount (clock 0) hok
  have hd := Account.deposit_pos (h B) amount (clock 1) hvalid.1
  obtain ⟨description, hdt⟩ := hd.2.2
  rw [Bank.transferFunds_accepted bank h fromAcc toAcc amount clock A B hA hB hok
    (Double.ne_nan_of_pos hvalid.1)]
  simp only [Heap.afterLegs_at_source h A B amount clock hAB,
    Heap.afterLegs_at_destination h A B amount clock hAB]
  exact ⟨hw.1, hd.2.1, ⟨_, hw.2⟩, ⟨_, hdt⟩⟩

/-- Instance of the amended C2 on the bank of `main`: 100 from SA1001 (5000)
to CA1001 (2000) leaves 4900 and 2100. -/
theorem transferFunds_moves_amount_witness :
    mainBank.findAccount mainHeap "SA1001" = some 0 ∧
    mainBank.findAccount mainHeap "CA1001" = some 1 ∧
    (0 : Nat) ≠ 1 ∧ (mainHeap 0).canWithdraw 100 ∧
    ((mainBank.transferFunds mainHeap "SA1001" "CA1001" 100 (fixedClock "2024-01-01")).state
      0).getBalance = (mainHeap 0).getBalance - 100 ∧
    ((mainBank.transferFunds mainHeap "SA1001" "CA1001" 100 (fixedClock "2024-01-01")).state
      1).getBalance = (mainHeap 1).getBalance + 100 ∧
    (mainHeap 0).getBalance - 100 = 4900 ∧ (mainHeap 1).getBalance + 100 = 2100 :=
  ⟨by decide!, by decide!, by decide!, by decide!,
    (transferFunds_moves_amount mainBank mainHeap "SA1001" "CA1001" 100
      (fixedClock "2024-01-01") 0 1 (by decide!) (by decide!) (by decide!) (by decide!)).1,
    (transferFunds_moves_amount mainBank mainHeap "SA1001" "CA1001" 100
      (fixedClock "2024-01-01") 0 1 (by decide!) (by decide!) (by decide!) (by decide!)).2.1,
    by decide!, by decide!⟩

/-- C3, evaluated on the bank of `main`: the transfer of 100 from SA1001 to
CA1001 throws `invalid_argument`, and yet SA1001 has gone from 5000 to 4900
and CA1001 from 2000 to 2100: both balance changes survive the failed call. -/
theorem transferFunds_failed_call_keeps_balance_changes :
    (mainBank.transferFunds mainHeap "SA1001" "CA1001" 100 (fixedClock "2024-01-01")).thrown =
      some (.invalid_argument "Deposit amount must be positive.") ∧
    (mainHeap 0).getBalance = 5000 ∧
    ((mainBank.transferFunds mainHeap "SA1001" "CA1001" 100 (fixedClock "2024-01-01")).state
      0).getBalance = 4900 ∧
    (mainHeap 1).getBalance = 2000 ∧
    ((mainBank.transferFunds mainHeap "SA1001" "CA1001" 100 (fixedClock "2024-01-01")).state
      1).getBalance = 2100 := by
  refine ⟨by decide!, by decide!, by decide!, by decide!, by decide!⟩

/-- C4, evaluated on the bank of `main`: both CA1001 and SA2001 exist, the
amount 2400 is positive and within balance plus overdraft limit of CA1001
(2000 + 500), and still `transferFunds` does not return normally: it throws
`invalid_argument`. -/
theorem transferFunds_permitted_transfer_throws :
    mainBank.findAccount mainHeap "CA1001" = some 1 ∧
    mainBank.findAccount mainHeap "SA2001" = some 2 ∧
    (0 : Double) < 2400 ∧
    ((mainHeap 1).withdraw 2400 (fixedClock "2024-01-01" 0)).thrown = none ∧
    (mainBank.transferFunds mainHeap "CA1001" "SA2001" 2400 (fixedClock "2024-01-01")).thrown =
      some (.invalid_argument "Deposit amount must be positive.") := by
  refine ⟨by decide!, by decide!, by decide!, by decide!, by decide!⟩

/-! ## Transfer: account numbers that do not resolve -/

/-- C5. If either account number does not resolve, `transferFunds` throws the
account-not-found `runtime_error` and the heap (hence every balance and every
ledger) is unchanged, whatever the other account and the amount. -/
theorem transferFunds_account_not_found (bank : Bank) (h : Heap) (fromAcc toAcc : String)
    (amount : Double) (clock : Nat → String)
    (hnone : bank.findAccount h fromAcc = none ∨ bank.findAccount h toAcc = none) :
    (bank.transferFunds h fromAcc toAcc amount clock).thrown =
      some (.runtime_error "One or both accounts not found.") ∧
    (bank.transferFunds h fromAcc toAcc amount clock).state = h ∧
    ∀ p, ((bank.transferFunds h fromAcc toAcc amount clock).state p).getBalance =
        (h p).getBalance ∧
      ((bank.transferFunds h fromAcc toAcc amount clock).state p).transactions =
        (h p).transactions := by
  rw [Bank.transferFunds_unresolved bank h fromAcc toAcc amount clock hnone]
  simp

/-- Instance of C5: transfer of 10 from NONEXISTENT to the existing CA1001. -/
theorem transferFunds_account_not_found_witness :
    mainBank.findAccount mainHeap "NONEXISTENT" = none ∧
    mainBank.findAccount mainHeap "CA1001" = some 1 ∧
    (mainBank.transferFunds mainHeap "NONEXISTENT" "CA1001" 10 (fixedClock "2024-01-01")).thrown
      = some (.runtime_error "One or both accounts not found.") ∧
    (mainBank.transferFunds mainHeap "NONEXISTENT" "CA1001" 10 (fixedClock "2024-01-01")).state
      = mainHeap :=
  ⟨by decide!, by decide!,
    (transferFunds_account_not_found mainBank mainHeap "NONEXISTENT" "CA1001" 10
      (fixedClock "2024-01-01") (Or.inl (by decide!))).1,
    (transferFunds_account_not_found mainBank mainHeap "NONEXISTENT" "CA1001" 10
      (fixedClock "2024-01-01") (Or.inl (by decide!))).2.1⟩

/-! ## Transfer: non-positive amounts -/

/-- C6 as stated fails on a Loan source: on the bank of `main`, a transfer of
-5 from the loan LA2001 to SA2001 has both accounts resolved and a
non-positive amount, but the exception is the `runtime_error` of
`LoanAccount::withdraw`, not an `invalid_argument`. -/
theorem transferFunds_nonpositive_from_loan_is_runtime_error :
    mainBank.findAccount mainHeap "LA2001" = some 3 ∧
    mainBank.findAccount mainHeap "SA2001" = some 2 ∧
    (.finite (-5) : Double) ≤ 0 ∧
    (mainBank.transferFunds mainHeap "LA2001" "SA2001" (.finite (-5))
      (fixedClock "2024-01-01")).thrown =
      some (.runtime_error "Withdrawals are not allowed from a loan account.") ∧
    ¬ ∃ what,
      (mainBank.transferFunds mainHeap "LA2001" "SA2001" (.finite (-5))
        (fixedClock "2024-01-01")).thrown = some (.invalid_argument what) := by
  have ht : (mainBank.transferFunds mainHeap "LA2001" "SA2001" (.finite (-5))
      (fixedClock "2024-01-01")).thrown =
      some (.runtime_error "Withdrawals are not allowed from a loan account.") := by
    rw [Bank.transferFunds_refused mainBank mainHeap "LA2001" "SA2001" (.finite (-5))
      (fixedClock "2024-01-01") 3 2 _ (by decide!) (by decide!) rfl]
  refine ⟨by decide!, by decide!, by decide!, ht, ?_⟩
  rintro ⟨what, hw⟩
  rw [ht] at hw
  cases hw

/-- C6, amended: when both account numbers resolve and `amount ≤ 0`,
`transferFunds` throws and leaves the heap unchanged; the exception is
`invalid_argument` when the source is a Savings or a Checking account, and the
`runtime_error` of `LoanAccount::withdraw` when the source is a Loan. -/
theorem transferFunds_nonpositive_amount (bank : Bank) (h : Heap) (fromAcc toAcc : String)
    (amount : Double) (clock : Nat → String) (A B : Nat)
    (hA : bank.findAccount h fromAcc = some A) (hB : bank.findAccount h toAcc = some B)
    (hle : amount ≤ 0) :
    (∀ s, h A = .savings s →
      (bank.transferFunds h fromAcc toAcc amount clock).thrown =
        some (.invalid_argument "Withdrawal amount must be positive.")) ∧
    (∀ c, h A = .checking c →
      (bank.transferFunds h fromAcc toAcc amount clock).thrown =
        some (.invalid_argument "Withdrawal amount must be positive.")) ∧
    (∀ l, h A = .loan l →
      (bank.transferFunds h fromAcc toAcc amount clock).thrown =
        some (.runtime_error "Withdrawals are not allowed from a loan account.")) ∧
    (bank.transferFunds h fromAcc toAcc amount clock).state = h := by
  have key : ∀ e, ((h A).withdraw amount (clock 0)).thrown = some e →
      bank.transferFunds h fromAcc toAcc amount clock = ⟨some e, h⟩ :=
    fun e he => Bank.transferFunds_refused bank h fromAcc toAcc amount clock A B e hA hB he
  have hs : ∀ s, h A = .savings s → ((h A).withdraw amount (clock 0)).thrown =
      some (.invalid_argument "Withdrawal amount must be positive.") := by
    intro s hs
    simp [hs, Account.withdraw, SavingsAccount.withdraw, hle]
  have hc : ∀ c, h A = .checking c → ((h A).withdraw amount (clock 0)).thrown =
      some (.invalid_argument "Withdrawal amount must be positive.") := by
    intro c hc
    simp [hc, Account.withdraw, CheckingAccount.withdraw, hle]
  have hl : ∀ l, h A = .loan l → ((h A).withdraw amount (clock 0)).thrown =
      some (.runtime_error "Withdrawals are not allowed from a loan account.") := by
    intro l hl
    simp [hl, Account.withdraw, LoanAccount.withdraw]
  refine ⟨fun s e => ?_, fun c e => ?_, fun l e => ?_, ?_⟩
  · rw [key _ (hs s e)]
  · rw [key _ (hc c e)]
  · rw [key _ (hl l e)]
  · cases hk : h A with
    | savings s => rw [key _ (hs s hk)]
    | checking c => rw [key _ (hc c hk)]
    | loan l => rw [key _ (hl l hk)]

/-- Instance of the amended C6: a transfer of 0 from SA1001 to CA1001. -/
theorem transferFunds_nonpositive_amount_witness :
    mainBank.findAccount mainHeap "SA1001" = some 0 ∧
    mainBank.findAccount mainHeap "CA1001" = some 1 ∧
    (0 : Double) ≤ 0 ∧
    (mainBank.transferFunds mainHeap "SA1001" "CA1001" 0 (fixedClock "2024-01-01")).thrown =
      some (.invalid_argument "Withdrawal amount must be positive.") ∧
    (mainBank.transferFunds mainHeap "SA1001" "CA1001" 0 (fixedClock "2024-01-01")).state =
      mainHeap :=
  ⟨by decide!, by decide!, by decide!,
    (transferFunds_nonpositive_amount mainBank mainHeap "SA1001" "CA1001" 0
      (fixedClock "2024-01-01") 0 1 (by decide!) (by decide!) (by decide!)).1 _ rfl,
    (transferFunds_nonpositive_amount mainBank mainHeap "SA1001" "CA1001" 0
      (fixedClock "2024-01-01") 0 1 (by decide!) (by decide!) (by decide!)).2.2.2⟩

/-! ## Transfer: how the ledger entries are tagged -/

/-- C7, evaluated on the bank of `main`: after the transfer of 100 from SA1001
to CA1001 the one new entry on the source is an ordinary 'W' withdrawal and
the one new entry on the destination an ordinary 'D' deposit; no entry of type
'T' is recorded on either account. -/
theorem transferFunds_entries_tagged_as_ordinary :
    (mainHeap 0).transactions = [] ∧ (mainHeap 1).transactions = [] ∧
    ((mainBank.transferFunds mainHeap "SA1001" "CA1001" 100 (fixedClock "2024-01-01")).state
      0).transactions = [⟨'W', 100, "2024-01-01", "Withdrawal"⟩] ∧
    ((mainBank.transferFunds mainHeap "SA1001" "CA1001" 100 (fixedClock "2024-01-01")).state
      1).transactions = [⟨'D', 100, "2024-01-01", "Deposit"⟩] := by
  refine ⟨rfl, rfl, by decide!, by decide!⟩

/-! ## Deposit -/

/-- C8. For an account of any kind and any `amount ≤ 0`, `deposit(amount)`
throws `invalid_argument` and leaves the object as it was: same balance, same
ledger and, for a Loan, same `loanAmount`. -/
theorem deposit_nonpositive_rejected (a : Account) (amount : Double) (date : String)
    (hle : amount ≤ 0) :
    (∃ what, (a.deposit amount date).thrown = some (.invalid_argument what)) ∧
    (a.deposit amount date).state.getBalance = a.getBalance ∧
    (a.deposit amount date).state.transactions = a.transactions ∧
    (∀ l, a = .loan l → ∃ l2, (a.deposit amount date).state = .loan l2 ∧
      l2.loanAmount = l.loanAmount) ∧
    (a.deposit amount date).state = a := by
  have hd := Account.deposit_nonpos a amount date hle
  refine ⟨hd.1, by rw [hd.2], by rw [hd.2], fun l hl => ⟨l, ?_, rfl⟩, hd.2⟩
  rw [hd.2, hl]

/-- Instance of C8: a repayment of -5 on the loan account of `main`. -/
theorem deposit_nonpositive_rejected_witness :
    (.finite (-5) : Double) ≤ 0 ∧
    (∃ what, ((mainHeap 3).deposit (.finite (-5)) "2024-01-01").thrown =
      some (.invalid_argument what)) ∧
    ((mainHeap 3).deposit (.finite (-5)) "2024-01-01").state = mainHeap 3 :=
  ⟨by decide!,
    (deposit_nonpositive_rejected (mainHeap 3) (.finite (-5)) "2024-01-01" (by decide!)).1,
    (deposit_nonpositive_rejected (mainHeap 3) (.finite (-5)) "2024-01-01"
      (by decide!)).2.2.2.2⟩

/-- C9 as stated fails: the new balance is the rounded sum, not the exact one.
A Savings account holding 10000000000000000 accepts `deposit(1)` and records
the 'D' entry of 1, but its balance is still 10000000000000000. -/
theorem deposit_of_one_is_absorbed :
    (0 : Double) < 1 ∧
    (Account.savings (SavingsAccount.new "SA1001" "Alice Smith" 10000000000000000
      (Double.ofDecimal (3 / 100)))).getBalance = .finite 10000000000000000 ∧
    ((Account.savings (SavingsAccount.new "SA1001" "Alice Smith" 10000000000000000
      (Double.ofDecimal (3 / 100)))).deposit 1 "2024-01-01").thrown = none ∧
    ((Account.savings (SavingsAccount.new "SA1001" "Alice Smith" 10000000000000000
      (Double.ofDecimal (3 / 100)))).deposit 1 "2024-01-01").state.getBalance =
      .finite 10000000000000000 ∧
    ((Account.savings (SavingsAccount.new "SA1001" "Alice Smith" 10000000000000000
      (Double.ofDecimal (3 / 100)))).deposit 1 "2024-01-01").state.transactions =
      [⟨'D', 1, "2024-01-01", "Deposit"⟩] ∧
    (10000000000000000 : ℚ) ≠ 10000000000000000 + 1 := by
  refine ⟨by decide!, by decide!, by decide!, by decide!, by decide!, by norm_num⟩

/-- C9, amended: for an account of any kind and any `amount > 0`,
`deposit(amount)` returns normally, the new balance is the `double` sum of the
old balance and `amount` (the exact sum rounded to the nearest `double`), and
the ledger is the old ledger followed by one 'D' entry carrying `amount`. -/
theorem deposit_positive_succeeds (a : Account) (amount : Double) (date : String)
    (hpos : 0 < amount) :
    (a.deposit amount date).thrown = none ∧
    (a.deposit amount date).state.getBalance = a.getBalance + amount ∧
    ∃ description, (a.deposit amount date).state.transactions =
      a.transactions ++ [⟨'D', amount, date, description⟩] := by
  have hn : ¬ amount ≤ 0 := Double.not_le_zero_of_pos hpos
  cases a with
  | savings s =>
    simp [Account.deposit, SavingsAccount.deposit, Account.baseDeposit, hn, Account.getBalance,
      Account.transactions]
  | checking c =>
    simp [Account.deposit, CheckingAccount.deposit, Account.baseDeposit, hn,
      Account.getBalance, Account.transactions]
  | loan l =>
    simp [Account.deposit, LoanAccount.deposit, hn, Account.getBalance, Account.transactions]

/-- Instance of the amended C9: a deposit of 250 into CA1001 leaves 2250. -/
theorem deposit_positive_succeeds_witness :
    (0 : Double) < 250 ∧
    ((mainHeap 1).deposit 250 "2024-01-01").thrown = none ∧
    ((mainHeap 1).deposit 250 "2024-01-01").state.getBalance = (mainHeap 1).getBalance + 250 ∧
    (mainHeap 1).getBalance + 250 = 2250 :=
  ⟨by decide!,
    (deposit_positive_succeeds (mainHeap 1) 250 "2024-01-01" (by decide!)).1,
    (deposit_positive_succeeds (mainHeap 1) 250 "2024-01-01" (by decide!)).2.1,
    by decide!⟩

/-! ## Savings withdrawal -/

/-- C10 as stated fails twice.  A Savings account constructed with balance -10
asked to withdraw -5 has `amount > balance`, but the exception is
`invalid_argument`, not the insufficient-funds `runtime_error`.  And a Savings
account holding 10000000000000000 accepts `withdraw(1)` and records the 'W'
entry of 1, but its balance is still 10000000000000000: it has not decreased
by exactly 1. -/
theorem savings_withdraw_counterexamples :
    (.finite (-5) : Double) >
      (SavingsAccount.new "SA3001" "Carol Jones" (.finite (-10))
        (Double.ofDecimal (3 / 100))).balance ∧
    ((SavingsAccount.new "SA3001" "Carol Jones" (.finite (-10))
      (Double.ofDecimal (3 / 100))).withdraw (.finite (-5)) "2024-01-01").thrown =
      some (.invalid_argument "Withdrawal amount must be positive.") ∧
    (0 : Double) < 1 ∧
    (SavingsAccount.new "SA1001" "Alice Smith" 10000000000000000
      (Double.ofDecimal (3 / 100))).balance = .finite 10000000000000000 ∧
    (1 : Double) ≤ (SavingsAccount.new "SA1001" "Alice Smith" 10000000000000000
      (Double.ofDecimal (3 / 100))).balance ∧
    ((SavingsAccount.new "SA1001" "Alice Smith" 10000000000000000
      (Double.ofDecimal (3 / 100))).withdraw 1 "2024-01-01").thrown = none ∧
    ((SavingsAccount.new "SA1001" "Alice Smith" 10000000000000000
      (Double.ofDecimal (3 / 100))).withdraw 1 "2024-01-01").state.balance =
      .finite 10000000000000000 ∧
    ((SavingsAccount.new "SA1001" "Alice Smith" 10000000000000000
      (Double.ofDecimal (3 / 100))).withdraw 1 "2024-01-01").state.transactions =
      [⟨'W', 1, "2024-01-01", "Withdrawal"⟩] ∧
    (10000000000000000 : ℚ) ≠ 10000000000000000 - 1 := by
  refine ⟨by decide!, by decide!, by decide!, by decide!, by decide!, by decide!, by decide!,
    by decide!, by norm_num⟩

/-- C10, amended: on a Savings account, `withdraw(amount)` with `amount ≤ 0`
throws `invalid_argument`; with `0 < amount` and `amount > balance` it throws
the insufficient-funds `runtime_error`; in both cases the object is unchanged.
With `0 < amount ≤ balance` it returns normally, the new balance is the
`double` difference of the old balance and `amount` (the exact difference
rounded to the nearest `double`) and the ledger is the old ledger followed by
one 'W' entry of that amount; nothing else in the object changes. -/
theorem savings_withdraw_policy (a : SavingsAccount) (amount : Double) (date : String) :
    (amount ≤ 0 →
      (a.withdraw amount date).thrown =
        some (.invalid_argument "Withdrawal amount must be positive.") ∧
      (a.withdraw amount date).state = a) ∧
    (0 < amount → amount > a.balance →
      (a.withdraw amount date).thrown = some (.runtime_error "Insufficient funds.") ∧
      (a.withdraw amount date).state = a) ∧
    (0 < amount → amount ≤ a.balance →
      (a.withdraw amount date).thrown = none ∧
      (a.withdraw amount date).state.balance = a.balance - amount ∧
      (a.withdraw amount date).state.transactions =
        a.transactions ++ [⟨'W', amount, date, "Withdrawal"⟩] ∧
      (a.withdraw amount date).state =
        { a with
          balance := a.balance - amount
          transactions := a.transactions ++ [⟨'W', amount, date, "Withdrawal"⟩] }) := by
  refine ⟨fun h0 => ?_, fun h0 h1 => ?_, fun h0 h1 => ?_⟩
  · simp [SavingsAccount.withdraw, h0]
  · simp [SavingsAccount.withdraw, Double.not_le_zero_of_pos h0, h1]
  · have h2 : ¬ amount > a.balance := Double.not_lt_of_le h1
    simp [SavingsAccount.withdraw, Double.not_le_zero_of_pos h0, h2]

/-- Instance of the amended C10 on SA1001 of `main` (balance 5000): 6000 is
refused for insufficient funds, 100 goes through and leaves 4900. -/
theorem savings_withdraw_policy_witness :
    (0 : Double) < 6000 ∧
    (6000 : Double) > (SavingsAccount.new "SA1001" "Alice Smith" 5000
      (Double.ofDecimal (3 / 100))).balance ∧
    ((SavingsAccount.new "SA1001" "Alice Smith" 5000 (Double.ofDecimal (3 / 100))).withdraw 6000
      "2024-01-01").thrown = some (.runtime_error "Insufficient funds.") ∧
    (0 : Double) < 100 ∧
    (100 : Double) ≤ (SavingsAccount.new "SA1001" "Alice Smith" 5000
      (Double.ofDecimal (3 / 100))).balance ∧
    ((SavingsAccount.new "SA1001" "Alice Smith" 5000 (Double.ofDecimal (3 / 100))).withdraw 100
      "2024-01-01").thrown = none ∧
    ((SavingsAccount.new "SA1001" "Alice Smith" 5000 (Double.ofDecimal (3 / 100))).withdraw 100
      "2024-01-01").state.balance =
      (SavingsAccount.new "SA1001" "Alice Smith" 5000 (Double.ofDecimal (3 / 100))).balance
        - 100 ∧
    (SavingsAccount.new "SA1001" "Alice Smith" 5000 (Double.ofDecimal (3 / 100))).balance - 100
      = 4900 :=
  ⟨by decide!, by decide!,
    ((savings_withdraw_policy (SavingsAccount.new "SA1001" "Alice Smith" 5000
      (Double.ofDecimal (3 / 100))) 6000 "2024-01-01").2.1 (by decide!) (by decide!)).1,
    by decide!, by decide!,
    ((savings_withdraw_policy (SavingsAccount.new "SA1001" "Alice Smith" 5000
      (Double.ofDecimal (3 / 100))) 100 "2024-01-01").2.2 (by decide!) (by decide!)).1,
    ((savings_withdraw_policy (SavingsAccount.new "SA1001" "Alice Smith" 5000
      (Double.ofDecimal (3 / 100))) 100 "2024-01-01").2.2 (by decide!) (by decide!)).2.1,
    by decide!⟩

/-! ## Checking withdrawal -/

/-- C11 as stated fails twice.  On CA1001 of `main` (balance 2000, overdraft
limit 500) the amount -5 is `≤ balance + overdraftLimit`, yet `withdraw(-5)`
throws `invalid_argument`.  And a Checking account with balance
10000000000000002 and limit 1 accepts `withdraw(10000000000000004)`, leaving
-2, although the amount exceeds the exact sum 10000000000000003: the code
compares with the `double` sum, which is 10000000000000004. -/
theorem checking_withdraw_counterexamples :
    (.finite (-5) : Double) ≤ (CheckingAccount.new "CA1001" "Alice Smith" 2000 500).balance +
      (CheckingAccount.new "CA1001" "Alice Smith" 2000 500).overdraftLimit ∧
    ((CheckingAccount.new "CA1001" "Alice Smith" 2000 500).withdraw (.finite (-5))
      "2024-01-01").thrown = some (.invalid_argument "Withdrawal amount must be positive.") ∧
    (10000000000000002 : Double) = .finite 10000000000000002 ∧
    (10000000000000004 : Double) = .finite 10000000000000004 ∧
    (10000000000000004 : ℚ) > 10000000000000002 + 1 ∧
    ((CheckingAccount.new "CA2002" "Dan Brown" 10000000000000002 1).withdraw
      10000000000000004 "2024-01-01").thrown = none ∧
    ((CheckingAccount.new "CA2002" "Dan Brown" 10000000000000002 1).withdraw
      10000000000000004 "2024-01-01").state.balance = .finite (-2) := by
  refine ⟨by decide!, by decide!, by decide!, by decide!, by norm_num, by decide!, by decide!⟩

/-- C11, amended: on a Checking account `withdraw(amount)` returns normally if
and only if `0 < amount` and `amount ≤ balance + overdraftLimit`, the sum being
the `double` sum (the exact sum rounded to the nearest `double`); when it
does, the new balance is the `double` difference `balance - amount`.  A
positive amount above that sum throws the overdraft-exceeded `runtime_error`,
a non-positive amount throws `invalid_argument`, and both leave the object
unchanged.  (The equivalence is for numbers; the exact test of the code, which
also decides the NaN cases, is the first part.) -/
theorem checking_withdraw_policy (a : CheckingAccount) (amount : Double) (date : String) :
    ((a.withdraw amount date).thrown = none ↔
      ¬ amount ≤ 0 ∧ ¬ amount > a.balance + a.overdraftLimit) ∧
    (amount ≠ .nan → a.balance + a.overdraftLimit ≠ .nan →
      ((a.withdraw amount date).thrown = none ↔
        0 < amount ∧ amount ≤ a.balance + a.overdraftLimit)) ∧
    ((a.withdraw amount date).thrown = none →
      (a.withdraw amount date).state.balance = a.balance - amount) ∧
    (0 < amount → amount > a.balance + a.overdraftLimit →
      (a.withdraw amount date).thrown = some (.runtime_error "Overdraft limit exceeded.") ∧
      (a.withdraw amount date).state = a) ∧
    (amount ≤ 0 →
      (a.withdraw amount date).thrown =
        some (.invalid_argument "Withdrawal amount must be positive.") ∧
      (a.withdraw amount date).state = a) := by
  have hiff : (a.withdraw amount date).thrown = none ↔
      ¬ amount ≤ 0 ∧ ¬ amount > a.balance + a.overdraftLimit := by
    unfold CheckingAccount.withdraw
    split_ifs with h0 h1
    · simp [h0]
    · simp [h0, h1]
    · simp [h0, h1]
  refine ⟨hiff, fun hn hs => ?_, ?_, fun h0 h1 => ?_, fun h0 => ?_⟩
  · rw [hiff]
    constructor
    · rintro ⟨h0, h1⟩
      exact ⟨Double.pos_of_not_le_zero h0 hn, Double.le_of_not_lt h1 hn hs⟩
    · rintro ⟨h0, h1⟩
      exact ⟨Double.not_le_zero_of_pos h0, Double.not_lt_of_le h1⟩
  · unfold CheckingAccount.withdraw
    split_ifs with h0 h1
    · intro hf; cases hf
    · intro hf; cases hf
    · intro _; rfl
  · simp [CheckingAccount.withdraw, Double.not_le_zero_of_pos h0, h1]
  · simp [CheckingAccount.withdraw, h0]

/-- Instance of the amended C11, the example of the specification: with
balance 2000 and overdraft limit 500, `withdraw(2400)` returns normally and
leaves -400, and `withdraw(2600)` on the original state throws the
overdraft-exceeded error. -/
theorem checking_withdraw_policy_witness :
    (0 : Double) < 2400 ∧
    (2400 : Double) ≤ (CheckingAccount.new "CA1001" "Alice Smith" 2000 500).balance +
      (CheckingAccount.new "CA1001" "Alice Smith" 2000 500).overdraftLimit ∧
    ((CheckingAccount.new "CA1001" "Alice Smith" 2000 500).withdraw 2400 "2024-01-01").thrown =
      none ∧
    ((CheckingAccount.new "CA1001" "Alice Smith" 2000 500).withdraw 2400
      "2024-01-01").state.balance = .finite (-400) ∧
    (0 : Double) < 2600 ∧
    (2600 : Double) > (CheckingAccount.new "CA1001" "Alice Smith" 2000 500).balance +
      (CheckingAccount.new "CA1001" "Alice Smith" 2000 500).overdraftLimit ∧
    ((CheckingAccount.new "CA1001" "Alice Smith" 2000 500).withdraw 2600 "2024-01-01").thrown =
      some (.runtime_error "Overdraft limit exceeded.") := by
  have h1 := checking_withdraw_policy (CheckingAccount.new "CA1001" "Alice Smith" 2000 500)
    2400 "2024-01-01"
  have h2 := checking_withdraw_policy (CheckingAccount.new "CA1001" "Alice Smith" 2000 500)
    2600 "2024-01-01"
  have hin : (0 : Double) < 2400 ∧
      (2400 : Double) ≤ (CheckingAccount.new "CA1001" "Alice Smith" 2000 500).balance +
        (CheckingAccount.new "CA1001" "Alice Smith" 2000 500).overdraftLimit :=
    ⟨by decide!, by decide!⟩
  have hok := (h1.2.1 (by decide!) (by decide!)).mpr hin
  refine ⟨hin.1, hin.2, hok, ?_, by decide!, by decide!, (h2.2.2.2.1 (by decide!) (by decide!)).1⟩
  rw [h1.2.2.1 hok]
  decide!

/-! ## Loan withdrawal -/

/-- C12. On a Loan account `withdraw(amount)` throws, for every amount and
every state, the `runtime_error` saying withdrawals are not allowed (never an
`invalid_argument`), and the object (balance, `loanAmount`, ledger and all
other fields) is unchanged; the same holds for the call through `Account*`. -/
theorem loan_withdraw_unsupported (a : LoanAccount) (amount : Double) (date : String) :
    (a.withdraw amount date).thrown =
      some (.runtime_error "Withdrawals are not allowed from a loan account.") ∧
    (∀ what, (a.withdraw amount date).thrown ≠ some (.invalid_argument what)) ∧
    (a.withdraw amount date).state.balance = a.balance ∧
    (a.withdraw amount date).state.loanAmount = a.loanAmount ∧
    (a.withdraw amount date).state.transactions = a.transactions ∧
    (a.withdraw amount date).state = a ∧
    ((Account.loan a).withdraw amount date).thrown =
      some (.runtime_error "Withdrawals are not allowed from a loan account.") ∧
    ((Account.loan a).withdraw amount date).state = Account.loan a := by
  refine ⟨rfl, fun what hw => ?_, rfl, rfl, rfl, rfl, rfl, rfl⟩
  simp [LoanAccount.withdraw] at hw

/-! ## Ledger and balance -/

theorem replayLedger_append_singleton (initial : Double) (ledger : List Transaction)
    (t : Transaction) :
    replayLedger initial (ledger ++ [t]) = t.applyTo (replayLedger initial ledger) := by
  simp [replayLedger, List.foldl_append, Transaction.applyTo]

theorem Account.deposit_keeps_replay (init : Double) (a : Account) (amount : Double)
    (date : String) (ha : a.getBalance = replayLedger init a.transactions) :
    (a.deposit amount date).state.getBalance =
      replayLedger init (a.deposit amount date).state.transactions := by
  by_cases hle : amount ≤ 0
  · rw [(Account.deposit_nonpos a amount date hle).2]
    exact ha
  · obtain ⟨_, hb, description, ht⟩ := Account.deposit_accepted a amount date hle
    rw [hb, ht, replayLedger_append_singleton, ← ha]
    simp [Transaction.applyTo]

theorem Account.withdraw_keeps_replay (init : Double) (a : Account) (amount : Double)
    (date : String) (ha : a.getBalance = replayLedger init a.transactions) :
    (a.withdraw amount date).state.getBalance =
      replayLedger init (a.withdraw amount date).state.transactions := by
  cases ht : (a.withdraw amount date).thrown with
  | some e =>
    rw [Account.withdraw_thrown_state a amount date e ht]
    exact ha
  | none =>
    obtain ⟨hb, hl⟩ := Account.withdraw_accepted a amount date ht
    rw [hb, hl, replayLedger_append_singleton, ← ha]
    simp [Transaction.applyTo]

theorem Account.applyInterest_keeps_replay (init : Double) (a : Account) (date : String)
    (ha : a.getBalance = replayLedger init a.transactions) :
    (a.applyInterest date).state.getBalance =
      replayLedger init (a.applyInterest date).state.transactions := by
  cases a with
  | savings s =>
    simp only [Account.getBalance, Account.transactions] at ha
    simp only [Account.applyInterest, SavingsAccount.applyInterest, Account.getBalance,
      Account.transactions, replayLedger_append_singleton, ← ha]
    simp [Transaction.applyTo]
  | checking c => exact ha
  | loan l => exact ha

theorem Account.processMonthlyPayment_keeps_replay (init : Double) (a : Account)
    (date : String) (ha : a.getBalance = replayLedger init a.transactions) :
    (a.processMonthlyPayment date).state.getBalance =
      replayLedger init (a.processMonthlyPayment date).state.transactions := by
  cases a with
  | savings s => exact ha
  | checking c => exact ha
  | loan l =>
    simp only [Account.getBalance, Account.transactions] at ha
    simp only [Account.processMonthlyPayment, LoanAccount.processMonthlyPayment,
      Account.getBalance, Account.transactions, replayLedger_append_singleton, ← ha]
    simp [Transaction.applyTo]

/-- C13 as stated fails: every deposit is rounded into the balance, while the
ledger keeps the exact amounts.  On the bank of `main`, after the deposits
10000000000000000, 1 and 1 into SA1001 (created with 5000 and an empty
ledger) the ledger holds these three 'D' entries but the balance is
10000000000005000, not 5000 plus their sum 10000000000000002. -/
theorem balance_differs_from_exact_ledger_sum :
    (mainHeap 0).getBalance = .finite 5000 ∧ (mainHeap 0).transactions = [] ∧
    ((mainBank.run
      [.deposit 0 10000000000000000 "2024-01-01", .deposit 0 1 "2024-01-02",
        .deposit 0 1 "2024-01-03"] mainHeap) 0).transactions =
      [⟨'D', .finite 10000000000000000, "2024-01-01", "Deposit"⟩,
        ⟨'D', .finite 1, "2024-01-02", "Deposit"⟩, ⟨'D', .finite 1, "2024-01-03", "Deposit"⟩] ∧
    ((mainBank.run
      [.deposit 0 10000000000000000 "2024-01-01", .deposit 0 1 "2024-01-02",
        .deposit 0 1 "2024-01-03"] mainHeap) 0).getBalance = .finite 10000000000005000 ∧
    (5000 + (10000000000000000 + 1 + 1) : ℚ) ≠ 10000000000005000 := by
  refine ⟨by decide!, rfl, by decide!, by decide!, by norm_num⟩

/-- C13, amended: take any account (any kind, at any address `p`) whose ledger
is empty, as at creation, and any finite sequence of calls (`deposit`,
`withdraw`, `applyInterest`, `processMonthlyPayment` on any account, and
`transferFunds`), failing ones included.  Afterwards the balance of the
account is the initial balance with the ledger entries booked one after the
other in ledger order ('D' added, 'W' and 'L' subtracted), each step rounded
to the nearest `double`; it is the exact signed sum only as long as no step
rounds. -/
theorem balance_is_ledger_replayed (bank : Bank) (es : List Event) (h0 : Heap)
    (p : Nat) (hnew : (h0 p).transactions = []) :
    (bank.run es h0 p).getBalance =
      replayLedger (h0 p).getBalance (bank.run es h0 p).transactions := by
  refine Bank.run_keeps
    (fun a => a.getBalance = replayLedger (h0 p).getBalance a.transactions)
    (fun _ => True) (fun _ _ => trivial)
    (fun a x d _ ha => Account.deposit_keeps_replay _ a x d ha)
    (fun a x d _ ha => Account.withdraw_keeps_replay _ a x d ha)
    (fun a d ha => Account.applyInterest_keeps_replay _ a d ha)
    (fun a d ha => Account.processMonthlyPayment_keeps_replay _ a d ha)
    bank es (fun _ _ _ _ => trivial) h0 p ?_
  show (h0 p).getBalance = replayLedger (h0 p).getBalance (h0 p).transactions
  rw [hnew]
  rfl

/-- Instance of the amended C13 on SA1001 of `main`: a deposit, a withdrawal,
a transfer to CA1001, an interest credit and a refused withdrawal of -1. -/
theorem balance_is_ledger_replayed_witness :
    (mainHeap 0).transactions = [] ∧
    (mainBank.run
      [.deposit 0 100 "2024-01-01", .withdraw 0 50 "2024-01-02",
        .transferFunds "SA1001" "CA1001" 100 (fixedClock "2024-01-03"),
        .applyInterest 0 "2024-01-04", .withdraw 0 (.finite (-1)) "2024-01-05"]
      mainHeap 0).getBalance =
      replayLedger (mainHeap 0).getBalance (mainBank.run
        [.deposit 0 100 "2024-01-01", .withdraw 0 50 "2024-01-02",
          .transferFunds "SA1001" "CA1001" 100 (fixedClock "2024-01-03"),
          .applyInterest 0 "2024-01-04", .withdraw 0 (.finite (-1)) "2024-01-05"]
        mainHeap 0).transactions :=
  ⟨rfl, balance_is_ledger_replayed mainBank _ mainHeap 0 rfl⟩

/-! ## Balance floors -/

theorem Double.isFinite_neg (x : Double) (hx : x.isFinite = true) : (-x).isFinite = true := by
  cases x <;> simp_all [Double.isFinite, Double.neg_def, Double.neg]

theorem Bank.run_keeps_savings_floor (bank : Bank) (es : List Event)
    (hes : ∀ e ∈ es, e.finiteAmount = true) (h : Heap) (p : Nat)
    (hp : ∃ s, h p = .savings s ∧ 0 ≤ s.balance ∧ 0 < s.interestRate ∧
      s.interestRate.isFinite = true) :
    ∃ s, bank.run es h p = .savings s ∧ 0 ≤ s.balance ∧ 0 < s.interestRate ∧
      s.interestRate.isFinite = true := by
  refine Bank.run_keeps
    (fun a => ∃ s, a = Account.savings s ∧ 0 ≤ s.balance ∧ 0 < s.interestRate ∧
      s.interestRate.isFinite = true)
    (fun x => x.isFinite = true) Double.isFinite_neg ?_ ?_ ?_ ?_ bank es ?_ h p hp
  · rintro a x d hx ⟨s, rfl, hb, hr, hf⟩
    by_cases hle : x ≤ 0
    · rw [(Account.deposit_nonpos _ x d hle).2]
      exact ⟨s, rfl, hb, hr, hf⟩
    · have hx0 : (0 : Double) ≤ x := by
        have hpos := Double.pos_of_not_le_zero hle (by rintro rfl; simp [Double.isFinite] at hx)
        rw [Double.lt_def, Double.zero_def] at hpos
        rw [Double.le_def, Double.zero_def]
        cases x with
        | finite y =>
          simp only [Double.lt, decide_eq_true_eq] at hpos
          simp only [Double.le, decide_eq_true_eq]
          exact hpos.le
        | posInf => rfl
        | negInf => simp [Double.lt] at hpos
        | nan => simp [Double.lt] at hpos
      simp only [Account.deposit, SavingsAccount.deposit, Account.baseDeposit, if_neg hle]
      exact ⟨_, rfl, Double.add_nonneg hb hx0, hr, hf⟩
  · rintro a x d hx ⟨s, rfl, hb, hr, hf⟩
    simp only [Account.withdraw, SavingsAccount.withdraw]
    split_ifs with h0 h1
    · exact ⟨s, rfl, hb, hr, hf⟩
    · exact ⟨s, rfl, hb, hr, hf⟩
    · exact ⟨_, rfl, Double.sub_nonneg_of_not_lt hb hx h1, hr, hf⟩
  · rintro a d ⟨s, rfl, hb, hr, hf⟩
    exact ⟨_, rfl, Double.add_nonneg hb (Double.mul_nonneg_of_pos hb hr hf), hr, hf⟩
  · rintro a d ⟨s, rfl, hb, hr, hf⟩
    exact ⟨s, rfl, hb, hr, hf⟩
  · intro e he x hx
    have := hes e he
    simp only [Event.finiteAmount, List.all_eq_true] at this
    exact this x hx

/-- C15 as stated fails: product and sum are both rounded.  On a Savings
account with balance 100 and rate 0.07 (the `double` nearest to 7/100),
`applyInterest` records the entry 7881299347898369 / 2^50 (about
7.000000000000001), which is not the exact product of balance and rate, and the
new balance is 107, which is not the old balance plus that entry. -/
theorem savings_applyInterest_rounds :
    Double.ofDecimal (7 / 100) = .finite (1261007895663739 / 18014398509481984) ∧
    ((SavingsAccount.new "SA4001" "Erin Gray" 100 (Double.ofDecimal (7 / 100))).applyInterest
      "2024-01-01").state.transactions =
      [⟨'D', .finite (7881299347898369 / 1125899906842624), "2024-01-01",
        "Interest Applied"⟩] ∧
    (100 * (1261007895663739 / 18014398509481984) : ℚ) ≠
      7881299347898369 / 1125899906842624 ∧
    ((SavingsAccount.new "SA4001" "Erin Gray" 100 (Double.ofDecimal (7 / 100))).applyInterest
      "2024-01-01").state.balance = .finite 107 ∧
    (100 + 7881299347898369 / 1125899906842624 : ℚ) ≠ 107 ∧
    (100 + 100 * (1261007895663739 / 18014398509481984) : ℚ) ≠ 107 := by
  refine ⟨by decide!, by decide!, by norm_num, by decide!, by norm_num, by norm_num⟩

/-- C15, amended: on every Savings account `applyInterest()` returns normally;
the interest is the `double` product `balance * interestRate` of the balance
before the call (the exact product rounded to the nearest `double`); the new
balance is the `double` sum of the old balance and that interest; and the
ledger is the old ledger followed by exactly one 'D' entry whose amount is that
interest; no other field changes. -/
theorem savings_applyInterest_credits_interest (a : SavingsAccount) (date : String) :
    (a.applyInterest date).thrown = none ∧
    (a.applyInterest date).state.balance = a.balance + a.balance * a.interestRate ∧
    (a.applyInterest date).state.transactions =
      a.transactions ++ [⟨'D', a.balance * a.interestRate, date, "Interest Applied"⟩] ∧
    (a.applyInterest date).state.interestRate = a.interestRate ∧
    (a.applyInterest date).state.accountNumber = a.accountNumber ∧
    (a.applyInterest date).state.accountHolder = a.accountHolder :=
  ⟨rfl, rfl, rfl, rfl, rfl, rfl⟩

/-- Instance of the amended C15, the example of the specification: balance
5000 and rate 0.03 (the `double` nearest to 3/100) give balance 5150 and one
new 'D' entry of 150. -/
theorem savings_applyInterest_credits_interest_witness :
    ((SavingsAccount.new "SA1001" "Alice Smith" 5000 (Double.ofDecimal (3 / 100))).applyInterest
      "2024-01-01").thrown = none ∧
    ((SavingsAccount.new "SA1001" "Alice Smith" 5000 (Double.ofDecimal (3 / 100))).applyInterest
      "2024-01-01").state.balance = 5150 ∧
    ((SavingsAccount.new "SA1001" "Alice Smith" 5000 (Double.ofDecimal (3 / 100))).applyInterest
      "2024-01-01").state.transactions =
      [⟨'D', 150, "2024-01-01", "Interest Applied"⟩] := by
  have h := savings_applyInterest_credits_interest
    (SavingsAccount.new "SA1001" "Alice Smith" 5000 (Double.ofDecimal (3 / 100))) "2024-01-01"
  refine ⟨h.1, ?_, ?_⟩
  · rw [h.2.1]
    decide!
  · rw [h.2.2.1]
    decide!

/-- C16 as stated fails: the payment is a rounded product with the `double`
literal 0.01, not 1% of the principal.  On a Loan with `loanAmount` 1000 and
rate 0.07 `processMonthlyPayment` sets `loanAmount` to 1070 and the payment to
6023564501608039 / 2^49 (about 10.700000000000001), which is neither 107/10
nor the exact product of 1070 and the `double` 0.01; the balance goes from 0
to minus that payment. -/
theorem loan_processMonthlyPayment_rounds :
    Double.ofDecimal (1 / 100) = .finite (5764607523034235 / 576460752303423488) ∧
    ((LoanAccount.new "LA5001" "Finn Hall" 1000 (Double.ofDecimal (7 / 100))
      0).processMonthlyPayment "2024-01-01").state.loanAmount = .finite 1070 ∧
    ((LoanAccount.new "LA5001" "Finn Hall" 1000 (Double.ofDecimal (7 / 100))
      0).processMonthlyPayment "2024-01-01").state.monthlyPayment =
      .finite (6023564501608039 / 562949953421312) ∧
    (1070 * (1 / 100) : ℚ) ≠ 6023564501608039 / 562949953421312 ∧
    (1070 * (5764607523034235 / 576460752303423488) : ℚ) ≠
      6023564501608039 / 562949953421312 ∧
    ((LoanAccount.new "LA5001" "Finn Hall" 1000 (Double.ofDecimal (7 / 100))
      0).processMonthlyPayment "2024-01-01").state.balance =
      .finite (-(6023564501608039 / 562949953421312)) := by
  refine ⟨by decide!, by decide!, by decide!, by norm_num, by norm_num, by decide!⟩

/-- C16, amended: on every Loan account `processMonthlyPayment()` returns
normally; the new `loanAmount` is the `double` sum of `loanAmount` and the
`double` product `loanAmount * interestRate`; the payment is the `double`
product of that updated `loanAmount` (not of the old one) and the `double`
literal 0.01, and is stored in `monthlyPayment`; the new balance is the
`double` difference of the old balance and that payment; and the ledger is the
old ledger followed by exactly one 'L' entry carrying that payment.  Every
product, sum and difference is the exact one rounded to the nearest `double`. -/
theorem loan_processMonthlyPayment_effect (a : LoanAccount) (date : String) :
    (a.processMonthlyPayment date).thrown = none ∧
    (a.processMonthlyPayment date).state.loanAmount =
      a.loanAmount + a.loanAmount * a.interestRate ∧
    (a.processMonthlyPayment date).state.monthlyPayment =
      (a.processMonthlyPayment date).state.loanAmount * Double.ofDecimal (1 / 100) ∧
    (a.processMonthlyPayment date).state.monthlyPayment =
      (a.loanAmount + a.loanAmount * a.interestRate) * Double.ofDecimal (1 / 100) ∧
    (a.processMonthlyPayment date).state.balance =
      a.balance - (a.processMonthlyPayment date).state.monthlyPayment ∧
    (a.processMonthlyPayment date).state.transactions =
      a.transactions ++ [⟨'L', (a.processMonthlyPayment date).state.monthlyPayment, date,
        "Monthly Loan Payment"⟩] ∧
    (a.processMonthlyPayment date).state.interestRate = a.interestRate :=
  ⟨rfl, rfl, rfl, rfl, rfl, rfl, rfl⟩

/-- Instance of the amended C16 on LA2001 of `main` (loan 10000, rate 0.05):
the loan amount becomes 10500, the payment is 105 and the balance goes from 0
to -105. -/
theorem loan_processMonthlyPayment_effect_witness :
    ((LoanAccount.new "LA2001" "Bob Johnson" 10000 (Double.ofDecimal (5 / 100))
      0).processMonthlyPayment "2024-01-01").state.loanAmount = 10500 ∧
    ((LoanAccount.new "LA2001" "Bob Johnson" 10000 (Double.ofDecimal (5 / 100))
      0).processMonthlyPayment "2024-01-01").state.monthlyPayment = 105 ∧
    ((LoanAccount.new "LA2001" "Bob Johnson" 10000 (Double.ofDecimal (5 / 100))
      0).processMonthlyPayment "2024-01-01").state.balance = .finite (-105) := by
  have h := loan_processMonthlyPayment_effect
    (LoanAccount.new "LA2001" "Bob Johnson" 10000 (Double.ofDecimal (5 / 100)) 0) "2024-01-01"
  refine ⟨?_, ?_, ?_⟩
  · rw [h.2.1]
    decide!
  · rw [h.2.2.2.1]
    decide!
  · rw [h.2.2.2.2.1, h.2.2.2.1]
    decide!

/-- C17 as stated fails: both fields are updated with rounding.  On the bank of
`main`, once 10000000000000000 has been repaid on LA2001 its balance is
10000000000000000 and its `loanAmount` -9999999999990000; a further
`deposit(1)` returns normally and records the 'D' entry of 1, but leaves both
fields as they were: neither moves by exactly 1. -/
theorem loan_repayment_of_one_is_absorbed :
    (mainBank.run [.deposit 3 10000000000000000 "2024-01-01"] mainHeap) 3 =
      .loan ⟨"LA2001", "Bob Johnson", .finite 10000000000000000,
        .finite (-9999999999990000), Double.ofDecimal (5 / 100), 0,
        [⟨'D', .finite 10000000000000000, "2024-01-01", "Loan Repayment"⟩]⟩ ∧
    (0 : Double) < 1 ∧
    (mainBank.run [.deposit 3 10000000000000000 "2024-01-01", .deposit 3 1 "2024-01-02"]
      mainHeap) 3 =
      .loan ⟨"LA2001", "Bob Johnson", .finite 10000000000000000,
        .finite (-9999999999990000), Double.ofDecimal (5 / 100), 0,
        [⟨'D', .finite 10000000000000000, "2024-01-01", "Loan Repayment"⟩,
          ⟨'D', .finite 1, "2024-01-02", "Loan Repayment"⟩]⟩ ∧
    (10000000000000000 : ℚ) ≠ 10000000000000000 + 1 ∧
    (-9999999999990000 : ℚ) ≠ -9999999999990000 - 1 := by
  refine ⟨by decide!, by decide!, by decide!, by norm_num, by norm_num⟩

/-- C17, amended: on every Loan account and for every `amount > 0`,
`deposit(amount)` returns normally, the new `loanAmount` is the `double`
difference `loanAmount - amount` (with no floor at zero), the new balance is
the `double` sum `balance + amount` (each the exact result rounded to the
nearest `double`), `interestRate` and `monthlyPayment` are unchanged, and the
ledger is the old ledger followed by one 'D' entry described as
"Loan Repayment". -/
theorem loan_deposit_is_repayment (a : LoanAccount) (amount : Double) (date : String)
    (hpos : 0 < amount) :
    (a.deposit amount date).thrown = none ∧
    (a.deposit amount date).state.loanAmount = a.loanAmount - amount ∧
    (a.deposit amount date).state.balance = a.balance + amount ∧
    (a.deposit amount date).state.interestRate = a.interestRate ∧
    (a.deposit amount date).state.monthlyPayment = a.monthlyPayment ∧
    (a.deposit amount date).state.transactions =
      a.transactions ++ [⟨'D', amount, date, "Loan Repayment"⟩] := by
  simp [LoanAccount.deposit, Double.not_le_zero_of_pos hpos]

/-- Instance of the amended C17 on LA2001 of `main` (loan 10000): a repayment
of 12000 leaves the negative loan amount -2000. -/
theorem loan_deposit_is_repayment_witness :
    (0 : Double) < 12000 ∧
    ((LoanAccount.new "LA2001" "Bob Johnson" 10000 (Double.ofDecimal (5 / 100)) 0).deposit 12000
      "2024-01-01").thrown = none ∧
    ((LoanAccount.new "LA2001" "Bob Johnson" 10000 (Double.ofDecimal (5 / 100)) 0).deposit 12000
      "2024-01-01").state.loanAmount = .finite (-2000) := by
  have h := loan_deposit_is_repayment
    (LoanAccount.new "LA2001" "Bob Johnson" 10000 (Double.ofDecimal (5 / 100)) 0) 12000
    "2024-01-01" (by decide!)
  refine ⟨by decide!, h.1, ?_⟩
  rw [h.2.1]
  decide!

/-! ## Account lookup -/

theorem findInAccounts_eq_find (h : Heap) (accNum : String) (ps : List Nat) :
    findInAccounts h accNum ps =
      ps.find? (fun p => decide ((h p).getAccountNumber = accNum)) := by
  induction ps with
  | nil => rfl
  | cons p ps ih =>
    by_cases hp : (h p).getAccountNumber = accNum
    · simp [findInAccounts, hp]
    · simp [findInAccounts, hp, ih]

theorem findInCustomers_eq_find (h : Heap) (accNum : String) (cs : List Customer) :
    findInCustomers h accNum cs =
      (cs.flatMap Customer.getAccounts).find?
        (fun p => decide ((h p).getAccountNumber = accNum)) := by
  induction cs with
  | nil => rfl
  | cons c cs ih =>
    rw [List.flatMap_cons, List.find?_append, ← ih, ← findInAccounts_eq_find]
    cases hfa : findInAccounts h accNum c.getAccounts <;> simp [findInCustomers, hfa]

/-- C18. For every bank, heap and account number `n`: `findAccount(n)` returns
`nullptr` exactly when no account of any customer has number `n`; and it
returns the pointer `p` exactly when `p` is the first pointer in scan order
(customers in insertion order, the accounts of each in insertion order) whose
account has number `n`.  The function is `const`: it yields a pointer and no
new state. -/
theorem findAccount_first_in_scan_order (bank : Bank) (h : Heap) (n : String) :
    (bank.findAccount h n = none ↔
      ∀ c ∈ bank.customers, ∀ p ∈ c.accounts, (h p).getAccountNumber ≠ n) ∧
    (∀ p, bank.findAccount h n = some p ↔
      ∃ before after, bank.scanOrder = before ++ p :: after ∧
        (h p).getAccountNumber = n ∧ ∀ q ∈ before, (h q).getAccountNumber ≠ n) := by
  have hfind : bank.findAccount h n =
      bank.scanOrder.find? (fun p => decide ((h p).getAccountNumber = n)) :=
    findInCustomers_eq_find h n bank.customers
  constructor
  · rw [hfind, List.find?_eq_none]
    simp only [Bank.scanOrder, List.mem_flatMap, Customer.getAccounts, decide_eq_true_eq]
    constructor
    · intro hall c hc p hp
      exact hall p ⟨c, hc, hp⟩
    · rintro hall p ⟨c, hc, hp⟩
      exact hall c hc p hp
  · intro p
    rw [hfind, List.find?_eq_some]
    simp only [decide_eq_true_eq, Bool.not_eq_true', decide_eq_false_iff_not]
    constructor
    · rintro ⟨hp, before, after, hsplit, hbefore⟩
      exact ⟨before, after, hsplit, hp, hbefore⟩
    · rintro ⟨before, after, hsplit, hp, hbefore⟩
      exact ⟨hp, before, after, hsplit, hbefore⟩

/-! ## Append-only ledger -/

theorem Account.deposit_extends_ledger (a : Account) (amount : Double) (date : String) :
    ∃ added, (a.deposit amount date).state.transactions = a.transactions ++ added := by
  by_cases hle : amount ≤ 0
  · exact ⟨[], by rw [(Account.deposit_nonpos a amount date hle).2, List.append_nil]⟩
  · obtain ⟨_, _, description, ht⟩ := Account.deposit_accepted a amount date hle
    exact ⟨_, ht⟩

theorem Account.withdraw_extends_ledger (a : Account) (amount : Double) (date : String) :
    ∃ added, (a.withdraw amount date).state.transactions = a.transactions ++ added := by
  cases ht : (a.withdraw amount date).thrown with
  | some e =>
    exact ⟨[], by rw [Account.withdraw_thrown_state a amount date e ht, List.append_nil]⟩
  | none => exact ⟨_, (Account.withdraw_accepted a amount date ht).2⟩

theorem Account.applyInterest_extends_ledger (a : Account) (date : String) :
    ∃ added, (a.applyInterest date).state.transactions = a.transactions ++ added := by
  cases a with
  | savings s => exact ⟨_, rfl⟩
  | checking c => exact ⟨[], (List.append_nil _).symm⟩
  | loan l => exact ⟨[], (List.append_nil _).symm⟩

theorem Account.processMonthlyPayment_extends_ledger (a : Account) (date : String) :
    ∃ added, (a.processMonthlyPayment date).state.transactions = a.transactions ++ added := by
  cases a with
  | savings s => exact ⟨[], (List.append_nil _).symm⟩
  | checking c => exact ⟨[], (List.append_nil _).symm⟩
  | loan l => exact ⟨_, rfl⟩

theorem extends_trans (ledger : List Transaction) (a b : Account)
    (ha : ∃ added, a.transactions = ledger ++ added)
    (hb : ∃ added, b.transactions = a.transactions ++ added) :
    ∃ added, b.transactions = ledger ++ added := by
  obtain ⟨x, hx⟩ := ha
  obtain ⟨y, hy⟩ := hb
  exact ⟨x ++ y, by rw [hy, hx, List.append_assoc]⟩

/-- C19. Append-only ledger.  For every call (`deposit`, `withdraw`,
`applyInterest`, `processMonthlyPayment` on any account, or `transferFunds`)
and every account, the ledger before the call is an initial segment of the
ledger after it.  A `deposit` or `withdraw` that throws leaves the ledger as it
was; a `deposit` or `withdraw` that returns normally, and every
`applyInterest` and `processMonthlyPayment`, extends it by exactly one entry. -/
theorem ledger_is_append_only :
    (∀ (bank : Bank) (h : Heap) (e : Event) (p : Nat),
      ∃ added, ((bank.step h e).state p).transactions = (h p).transactions ++ added) ∧
    (∀ (a : Account) (amount : Double) (date : String), (a.deposit amount date).thrown ≠ none →
      (a.deposit amount date).state.transactions = a.transactions) ∧
    (∀ (a : Account) (amount : Double) (date : String), (a.withdraw amount date).thrown ≠ none →
      (a.withdraw amount date).state.transactions = a.transactions) ∧
    (∀ (a : Account) (amount : Double) (date : String), (a.deposit amount date).thrown = none →
      ∃ t, (a.deposit amount date).state.transactions = a.transactions ++ [t]) ∧
    (∀ (a : Account) (amount : Double) (date : String), (a.withdraw amount date).thrown = none →
      ∃ t, (a.withdraw amount date).state.transactions = a.transactions ++ [t]) ∧
    (∀ (a : SavingsAccount) (date : String), (a.applyInterest date).thrown = none ∧
      ∃ t, (a.applyInterest date).state.transactions = a.transactions ++ [t]) ∧
    (∀ (a : LoanAccount) (date : String), (a.processMonthlyPayment date).thrown = none ∧
      ∃ t, (a.processMonthlyPayment date).state.transactions = a.transactions ++ [t]) := by
  refine ⟨?_, ?_, ?_, ?_, ?_, fun a date => ⟨rfl, _, rfl⟩, fun a date => ⟨rfl, _, rfl⟩⟩
  · intro bank h e p
    exact Bank.step_keeps (fun a => ∃ added, a.transactions = (h p).transactions ++ added)
      (fun _ => True) (fun _ _ => trivial)
      (fun a x d _ ha => extends_trans _ a _ ha (Account.deposit_extends_ledger a x d))
      (fun a x d _ ha => extends_trans _ a _ ha (Account.withdraw_extends_ledger a x d))
      (fun a d ha => extends_trans _ a _ ha (Account.applyInterest_extends_ledger a d))
      (fun a d ha => extends_trans _ a _ ha (Account.processMonthlyPayment_extends_ledger a d))
      bank h e (fun _ _ => trivial) p ⟨[], (List.append_nil _).symm⟩
  · intro a amount date ht
    by_cases hle : amount ≤ 0
    · rw [(Account.deposit_nonpos a amount date hle).2]
    · exact absurd (Account.deposit_accepted a amount date hle).1 ht
  · intro a amount date ht
    cases hw : (a.withdraw amount date).thrown with
    | none => exact absurd hw ht
    | some e => rw [Account.withdraw_thrown_state a amount date e hw]
  · intro a amount date ht
    by_cases hle : amount ≤ 0
    · obtain ⟨what, hw⟩ := (Account.deposit_nonpos a amount date hle).1
      rw [hw] at ht
      cases ht
    · obtain ⟨_, _, description, hd⟩ := Account.deposit_accepted a amount date hle
      exact ⟨_, hd⟩
  · intro a amount date ht
    exact ⟨_, (Account.withdraw_accepted a amount date ht).2⟩

/-- Instance of C19 on the bank of `main`: the transfer of 100 from SA1001 to
CA1001 extends the ledger of SA1001, the refused withdrawal of 6000 leaves it
as it was, and the deposit of 100 adds one entry. -/
theorem ledger_is_append_only_witness :
    (∃ added, ((mainBank.step mainHeap
      (.transferFunds "SA1001" "CA1001" 100 (fixedClock "2024-01-01"))).state 0).transactions =
      (mainHeap 0).transactions ++ added) ∧
    ((mainHeap 0).withdraw 6000 "2024-01-01").thrown ≠ none ∧
    ((mainHeap 0).withdraw 6000 "2024-01-01").state.transactions = (mainHeap 0).transactions ∧
    ((mainHeap 0).deposit 100 "2024-01-01").thrown = none ∧
    (∃ t, ((mainHeap 0).deposit 100 "2024-01-01").state.transactions =
      (mainHeap 0).transactions ++ [t]) :=
  ⟨ledger_is_append_only.1 mainBank mainHeap _ 0,
    by decide!,
    ledger_is_append_only.2.2.1 (mainHeap 0) 6000 "2024-01-01" (by decide!),
    by decide!,
    ledger_is_append_only.2.2.2.1 (mainHeap 0) 100 "2024-01-01" (by decide!)⟩

/-! ## Transfer: each leg is applied once -/

theorem Account.deposit_pos_ledger (a : Account) (amount : Double) (date : String)
    (hpos : 0 < amount) (hkind : a.isSavings = true ∨ a.isChecking = true) :
    (a.deposit amount date).state.transactions =
      a.transactions ++ [⟨'D', amount, date, "Deposit"⟩] := by
  have hn : ¬ amount ≤ 0 := Double.not_le_zero_of_pos hpos
  cases a with
  | savings s =>
    simp [Account.deposit, SavingsAccount.deposit, Account.baseDeposit, hn,
      Account.transactions]
  | checking c =>
    simp [Account.deposit, CheckingAccount.deposit, Account.baseDeposit, hn,
      Account.transactions]
  | loan l => simp [Account.isSavings, Account.isChecking] at hkind

/-- C21. For every amount that is a number (finite or infinite; NaN, which
exact arithmetic does not have, is excluded) `transferFunds` never returns
normally: for every bank, heap, pair of account numbers and clock it throws.
The exception is the account-not-found `runtime_error` when a number does not
resolve; the exception of the source's `withdraw`, with the heap unchanged,
when that `withdraw` refuses (which it does when the amount is not positive,
when the policy refuses, and on every Loan source); and otherwise, the source
then being a Savings or Checking account whose withdrawal went through, the
`invalid_argument` of the follow-up `deposit(-amount)` on the source, thrown
once the source has been debited and the destination credited. -/
theorem transferFunds_never_returns (bank : Bank) (h : Heap) (fromAcc toAcc : String)
    (amount : Double) (clock : Nat → String) (hnum : amount ≠ .nan) :
    (bank.transferFunds h fromAcc toAcc amount clock).thrown ≠ none ∧
    (bank.findAccount h fromAcc = none ∨ bank.findAccount h toAcc = none →
      (bank.transferFunds h fromAcc toAcc amount clock).thrown =
        some (.runtime_error "One or both accounts not found.")) ∧
    (∀ A B, bank.findAccount h fromAcc = some A → bank.findAccount h toAcc = some B →
      ((h A).withdraw amount (clock 0)).thrown ≠ none →
      (bank.transferFunds h fromAcc toAcc amount clock).thrown =
        ((h A).withdraw amount (clock 0)).thrown ∧
      (bank.transferFunds h fromAcc toAcc amount clock).state = h) ∧
    (∀ A, (amount ≤ 0 ∨ (∃ s, h A = .savings s ∧ amount > s.balance) ∨
        (∃ c, h A = .checking c ∧ amount > c.balance + c.overdraftLimit) ∨
        (∃ l, h A = .loan l)) →
      ((h A).withdraw amount (clock 0)).thrown ≠ none) ∧
    (∀ A, (h A).canWithdraw amount → ((h A).withdraw amount (clock 0)).thrown = none) ∧
    (∀ A B, bank.findAccount h fromAcc = some A → bank.findAccount h toAcc = some B →
      ((h A).withdraw amount (clock 0)).thrown = none →
      ((h A).isSavings = true ∨ (h A).isChecking = true) ∧
      (bank.transferFunds h fromAcc toAcc amount clock).thrown =
        some (.invalid_argument "Deposit amount must be positive.") ∧
      (bank.transferFunds h fromAcc toAcc amount clock).state =
        h.afterLegs A B amount clock ∧
      (A ≠ B →
        ((bank.transferFunds h fromAcc toAcc amount clock).state A).getBalance =
          (h A).getBalance - amount ∧
        ((bank.transferFunds h fromAcc toAcc amount clock).state B).getBalance =
          (h B).getBalance + amount)) := by
  have hrefused : ∀ A B, bank.findAccount h fromAcc = some A →
      bank.findAccount h toAcc = some B → ((h A).withdraw amount (clock 0)).thrown ≠ none →
      ∃ e, ((h A).withdraw amount (clock 0)).thrown = some e ∧
        bank.transferFunds h fromAcc toAcc amount clock = ⟨some e, h⟩ := by
    intro A B hA hB hno
    cases ht : ((h A).withdraw amount (clock 0)).thrown with
    | none => exact absurd ht hno
    | some e => exact ⟨e, rfl, Bank.transferFunds_refused _ _ _ _ _ _ A B e hA hB ht⟩
  have haccepted : ∀ A B, bank.findAccount h fromAcc = some A →
      bank.findAccount h toAcc = some B → ((h A).withdraw amount (clock 0)).thrown = none →
      bank.transferFunds h fromAcc toAcc amount clock =
        ⟨some (.invalid_argument "Deposit amount must be positive."),
          h.afterLegs A B amount clock⟩ :=
    fun A B hA hB hok => Bank.transferFunds_accepted _ _ _ _ _ _ A B hA hB hok hnum
  refine ⟨?_, ?_, ?_, ?_, ?_, ?_⟩
  · cases hA : bank.findAccount h fromAcc with
    | none => rw [Bank.transferFunds_unresolved _ _ _ _ _ _ (Or.inl hA)]; simp
    | some A =>
      cases hB : bank.findAccount h toAcc with
      | none => rw [Bank.transferFunds_unresolved _ _ _ _ _ _ (Or.inr hB)]; simp
      | some B =>
        by_cases hc : ((h A).withdraw amount (clock 0)).thrown = none
        · rw [haccepted A B hA hB hc]; simp
        · obtain ⟨e, _, he⟩ := hrefused A B hA hB hc
          rw [he]; simp
  · intro hnone
    rw [Bank.transferFunds_unresolved _ _ _ _ _ _ hnone]
  · intro A B hA hB hno
    obtain ⟨e, hw, he⟩ := hrefused A B hA hB hno
    rw [he, hw]
    exact ⟨rfl, rfl⟩
  · intro A hno ht
    have hn0 := Account.withdraw_accepted_not_le _ _ _ ht
    rcases hno with h0 | ⟨s, hs, h1⟩ | ⟨c, hc, h1⟩ | ⟨l, hl⟩
    · exact hn0 h0
    · rw [hs] at ht
      simp [Account.withdraw, SavingsAccount.withdraw, hn0, h1] at ht
    · rw [hc] at ht
      simp [Account.withdraw, CheckingAccount.withdraw, hn0, h1] at ht
    · rw [hl] at ht
      simp [Account.withdraw, LoanAccount.withdraw] at ht
  · intro A hc
    exact Account.withdraw_of_canWithdraw _ _ _ hc
  · intro A B hA hB hok
    have hw := Account.withdraw_accepted (h A) amount (clock 0) hok
    have hd := Account.deposit_accepted (h B) amount (clock 1)
      (Account.withdraw_accepted_not_le _ _ _ hok)
    refine ⟨?_, ?_, ?_, fun hAB => ⟨?_, ?_⟩⟩
    · rcases Account.withdraw_accepted_kind _ _ _ hok with hk | hk
      · exact Or.inl hk.1
      · exact Or.inr hk.2
    · rw [haccepted A B hA hB hok]
    · rw [haccepted A B hA hB hok]
    · rw [haccepted A B hA hB hok]
      show (h.afterLegs A B amount clock A).getBalance = _
      rw [Heap.afterLegs_at_source h A B amount clock hAB]
      exact hw.1
    · rw [haccepted A B hA hB hok]
      show (h.afterLegs A B amount clock B).getBalance = _
      rw [Heap.afterLegs_at_destination h A B amount clock hAB]
      exact hd.2.1

/-- Instance of C21 on the bank of `main`: the transfer of 100 from SA1001 to
CA1001 throws `invalid_argument` with SA1001 debited, and the transfer of -5
out of the loan LA2001 throws the exception of the loan's `withdraw`. -/
theorem transferFunds_never_returns_witness :
    (100 : Double) ≠ .nan ∧
    mainBank.findAccount mainHeap "SA1001" = some 0 ∧
    mainBank.findAccount mainHeap "CA1001" = some 1 ∧
    ((mainHeap 0).withdraw 100 (fixedClock "2024-01-01" 0)).thrown = none ∧
    (mainBank.transferFunds mainHeap "SA1001" "CA1001" 100 (fixedClock "2024-01-01")).thrown =
      some (.invalid_argument "Deposit amount must be positive.") ∧
    ((mainBank.transferFunds mainHeap "SA1001" "CA1001" 100 (fixedClock "2024-01-01")).state
      0).getBalance = (mainHeap 0).getBalance - 100 ∧
    (.finite (-5) : Double) ≠ .nan ∧
    mainBank.findAccount mainHeap "LA2001" = some 3 ∧
    ((mainHeap 3).withdraw (.finite (-5)) (fixedClock "2024-01-01" 0)).thrown ≠ none ∧
    (mainBank.transferFunds mainHeap "LA2001" "CA1001" (.finite (-5))
      (fixedClock "2024-01-01")).thrown =
      ((mainHeap 3).withdraw (.finite (-5)) (fixedClock "2024-01-01" 0)).thrown ∧
    (mainBank.transferFunds mainHeap "LA2001" "CA1001" (.finite (-5))
      (fixedClock "2024-01-01")).state = mainHeap :=
  ⟨by decide!, by decide!, by decide!, by decide!,
    ((transferFunds_never_returns mainBank mainHeap "SA1001" "CA1001" 100
      (fixedClock "2024-01-01") (by decide!)).2.2.2.2.2 0 1 (by decide!) (by decide!)
      (by decide!)).2.1,
    (((transferFunds_never_returns mainBank mainHeap "SA1001" "CA1001" 100
      (fixedClock "2024-01-01") (by decide!)).2.2.2.2.2 0 1 (by decide!) (by decide!)
      (by decide!)).2.2.2 (by decide!)).1,
    by decide!, by decide!, by decide!,
    ((transferFunds_never_returns mainBank mainHeap "LA2001" "CA1001" (.finite (-5))
      (fixedClock "2024-01-01") (by decide!)).2.2.1 3 1 (by decide!) (by decide!) (by decide!)).1,
    ((transferFunds_never_returns mainBank mainHeap "LA2001" "CA1001" (.finite (-5))
      (fixedClock "2024-01-01") (by decide!)).2.2.1 3 1 (by decide!) (by decide!) (by decide!)).2⟩

end SafeTransact
